import Mathlib

/-!
# Verification of the External Service Gateway and Document Assembly Pipeline

A shallow embedding, in Lean 4, of the credential providers, REST gateway,
tool adapter, document assembly pipeline and markdown renderer of the
specification-document-agent repository, together with theorems settling the
spec's testable properties against the embedded code.

Conventions of the embedding:
* JavaScript timestamps (`Date.now()`, epoch milliseconds) are `Int`.
* Network effects are passed in explicitly: a credential refresh is an
  `Except`-valued argument describing the outcome of the token-endpoint
  exchange, an HTTP page fetch is a function from page number to parsed
  body, and the LLM backend is a function from request to `Except`.
* JavaScript exceptions are `Except` errors carrying the `Error` message.
* JavaScript truthiness is modelled where the source relies on it
  (empty string, zero, `undefined` are falsy).
-/

/-! ## Credential providers

`GitHubOAuthConfig` (src/app/_lib/clients/github/auth/oauth.ts) caches an
installation access token in the mutable fields `accessToken` / `expiresAt`
and refreshes it through the GitHub token endpoint.
`AtlassianAuthClient` (src/src/clients/atlassian.api.ts) has the analogous
check but `readonly` fields that are never reassigned, and its
`refreshToken` does not store the token it fetched.
-/

/-- Cache fields of `GitHubOAuthConfig`: `accessToken: string | undefined`,
`expiresAt: number | undefined` (epoch milliseconds). -/
structure GitHubAuthState where
  accessToken : Option String
  expiresAt : Option Int
deriving Repr, DecidableEq

/-- The cache test of `GitHubOAuthConfig.getAccessToken`:
`this.accessToken && this.expiresAt && this.expiresAt > Date.now() + 5 * 60 * 1000`.
JavaScript truthiness: an empty token string and a zero expiry are falsy. -/
def githubCacheFresh (st : GitHubAuthState) (now : Int) : Bool :=
  match st.accessToken, st.expiresAt with
  | some t, some e => !t.isEmpty && e != 0 && decide (e > now + 5 * 60 * 1000)
  | _, _ => false

/-- Outcome of one `getAccessToken` call: the returned (or thrown) value, the
cache state afterwards, and how many token-endpoint requests were made. -/
structure AuthCallResult where
  result : Except String String
  state : GitHubAuthState
  tokenEndpointCalls : Nat
deriving Repr

/-- `GitHubOAuthConfig.refreshToken`: exchanges a JWT for an installation
token at the token endpoint (one network call), caches token and expiry on
success, and on failure throws
`GitHub App authentication failed: <message>`. The endpoint outcome is the
explicit argument `refresh` (token and `expires_at` in epoch ms). -/
def GitHubOAuthConfig.refreshToken (st : GitHubAuthState)
    (refresh : Except String (String × Int)) : AuthCallResult :=
  match refresh with
  | .ok (tok, exp) => ⟨.ok tok, ⟨some tok, some exp⟩, 1⟩
  | .error m => ⟨.error ("GitHub App authentication failed: " ++ m), st, 1⟩

/-- `GitHubOAuthConfig.getAccessToken`: return the cached token if it is
fresh by more than the 5-minute buffer, otherwise refresh. -/
def GitHubOAuthConfig.getAccessToken (st : GitHubAuthState) (now : Int)
    (refresh : Except String (String × Int)) : AuthCallResult :=
  if githubCacheFresh st now then
    ⟨.ok (st.accessToken.getD ""), st, 0⟩
  else
    GitHubOAuthConfig.refreshToken st refresh

/-- Cache fields of `AtlassianAuthClient` — same shape, but in the source
they are `readonly` and initialized to `undefined`. -/
structure AtlassianAuthState where
  accessToken : Option String
  expiresAt : Option Int
deriving Repr, DecidableEq

/-- The cache test of `AtlassianAuthClient.getAccessToken`:
`this.accessToken && this.expiresAt && this.expiresAt > Date.now()` —
no guard band. -/
def atlassianCacheFresh (st : AtlassianAuthState) (now : Int) : Bool :=
  match st.accessToken, st.expiresAt with
  | some t, some e => !t.isEmpty && e != 0 && decide (e > now)
  | _, _ => false

/-- `AtlassianAuthClient.getAccessToken` composed with its `refreshToken`:
the refresh hits the OAuth token endpoint (one network call) and returns
`data.access_token`, but stores nothing — the fields are `readonly`, so the
state after the call is always the state before it. -/
def AtlassianAuthClient.getAccessToken (st : AtlassianAuthState) (now : Int)
    (refresh : Except String String) :
    Except String String × AtlassianAuthState × Nat :=
  if atlassianCacheFresh st now then
    (.ok (st.accessToken.getD ""), st, 0)
  else
    match refresh with
    | .ok tok => (.ok tok, st, 1)
    | .error m => (.error m, st, 1)

/-! ## Concurrent callers of `GitHubOAuthConfig.getAccessToken`

The event-loop interleaving of N concurrent `getAccessToken()` calls on one
`GitHubOAuthConfig` instance. Each call has two atomic segments separated by
its `await`:
* `check i` — caller `i` runs the cache test; on a hit it resolves with the
  cached token, on a miss it signs the JWT and issues its own token-endpoint
  request (`refreshToken` holds no in-flight handle that another caller
  could join);
* `complete i` — caller `i`'s token-endpoint response arrives; the token is
  written to the shared cache and the caller resolves with it.
`endpoint j` is the token/expiry pair the endpoint returns for the `j`-th
request issued. -/
inductive CallerPhase where
  | ready
  | awaiting (reqId : Nat)
  | done (token : String)
deriving Repr, DecidableEq

/-- Shared state of one provider instance plus the phases of its callers. -/
structure FlightState where
  cache : GitHubAuthState
  requestsIssued : Nat
  callers : List CallerPhase
deriving Repr, DecidableEq

inductive FlightEvent where
  | check (i : Nat)
  | complete (i : Nat)
deriving Repr, DecidableEq

def flightStep (now : Int) (endpoint : Nat → String × Int)
    (s : FlightState) (e : FlightEvent) : FlightState :=
  match e with
  | .check i =>
    match s.callers.get? i with
    | some .ready =>
      if githubCacheFresh s.cache now then
        { s with callers := s.callers.set i (.done (s.cache.accessToken.getD "")) }
      else
        { s with
            requestsIssued := s.requestsIssued + 1,
            callers := s.callers.set i (.awaiting s.requestsIssued) }
    | _ => s
  | .complete i =>
    match s.callers.get? i with
    | some (.awaiting j) =>
      { cache := ⟨some (endpoint j).1, some (endpoint j).2⟩,
        requestsIssued := s.requestsIssued,
        callers := s.callers.set i (.done (endpoint j).1) }
    | _ => s

def flightRun (now : Int) (endpoint : Nat → String × Int)
    (s : FlightState) (events : List FlightEvent) : FlightState :=
  events.foldl (flightStep now endpoint) s

/-- A token endpoint issuing a distinct token per request, all expiring far
in the future (year 2100). -/
def distinctTokenEndpoint : Nat → String × Int :=
  fun j => ("tok" ++ toString j, 4102444800000)

/-- Ten concurrent callers, all of which run their cache check (on an empty
cache) before any refresh completes — the schedule of the spec's N=10 test. -/
def tenCallerRace : FlightState :=
  flightRun 0 distinctTokenEndpoint
    ⟨⟨none, none⟩, 0, List.replicate 10 .ready⟩
    ((List.range 10).map .check ++ (List.range 10).map .complete)

/-- Two sequential callers: the second runs its check after the first's
refresh completed. -/
def sequentialCallers : FlightState :=
  flightRun 0 distinctTokenEndpoint
    ⟨⟨none, none⟩, 0, [.ready, .ready]⟩
    [.check 0, .complete 0, .check 1]

/-! ## Bounded auto-pagination

`GitHubApiClient.getPaginated` (src/app/_lib/clients/github/api.ts): fetch
`path` with `{...params, page, per_page}` for `page = 1, 2, ...`, appending
each page's items, until a page is not an array or is empty (break before
appending), or a page has fewer items than `per_page` (break after
appending), or `maxPages` pages have been fetched. The HTTP layer is the
argument `fetch`: for a page number it yields the parsed body, `none`
standing for a non-array body. -/

/-- JavaScript `x || d` on an optional number: `undefined` and `0` are
falsy (`params?.per_page || 100`). -/
def jsOrDefault (x : Option Nat) (d : Nat) : Nat :=
  match x with
  | none => d
  | some 0 => d
  | some n => n

/-- The `while (page <= maxPages)` loop of `getPaginated`. Returns the
accumulated items together with the list of page numbers requested. The
fuel is the number of remaining loop iterations, `maxPages - page + 1`. -/
def getPaginatedGo (fetch : Nat → Option (List α)) (perPage : Nat) :
    Nat → Nat → List α × List Nat
  | _, 0 => ([], [])
  | page, fuel + 1 =>
    match fetch page with
    | none => ([], [page])
    | some items =>
      if items.length = 0 then ([], [page])
      else if items.length < perPage then (items, [page])
      else
        let rest := getPaginatedGo fetch perPage (page + 1) fuel
        (items ++ rest.1, page :: rest.2)

/-- `GitHubApiClient.getPaginated(path, params, maxPages = 10)` with
`perPage = params?.per_page || 100`, starting at page 1. -/
def GitHubApiClient.getPaginated (fetch : Nat → Option (List α))
    (perPageParam : Option Nat) (maxPages : Nat := 10) : List α × List Nat :=
  getPaginatedGo fetch (jsOrDefault perPageParam 100) 1 maxPages

/-- The stopping test of the `PagedResult` invariant at one page: the page
is not an array, is empty, or has fewer items than the page size. -/
def pageStops (fetch : Nat → Option (List α)) (perPage page : Nat) : Bool :=
  match fetch page with
  | none => true
  | some items => items.length = 0 || decide (items.length < perPage)

/-- A mocked 5-item, 3-page source for page size 2: pages `[1,2]`, `[3,4]`,
`[5]`, and empty pages afterwards. -/
def fivePageSource : Nat → Option (List Nat) :=
  fun page =>
    if page = 1 then some [1, 2]
    else if page = 2 then some [3, 4]
    else if page = 3 then some [5]
    else some []

/-! ## Dynamic JSON values and JavaScript operations on them

The gateway clients and tool adapters handle API responses as untyped
(`any`) parsed JSON. `Json` is the value space (with `jsUndefined` for
JavaScript's `undefined`, which property access can produce), and the
`js...` functions model the JavaScript operations the source applies to
such values, throwing (`Except.error`) exactly where JavaScript throws. -/

inductive Json where
  | null
  | jsUndefined
  | bool (b : Bool)
  | num (n : Int)
  | str (s : String)
  | arr (elems : List Json)
  | obj (fields : List (String × Json))
deriving Repr

/-- A JavaScript exception: an `Error` thrown by the source, a `TypeError`
from accessing a property of `undefined`/`null` or calling a missing
method, or a `SyntaxError` from `JSON.parse`. The tool adapters' catch
blocks read `error.message` from any of them. -/
inductive JsErr where
  | fault (msg : String)
  | typeFault (msg : String)
  | parseFault (msg : String)
deriving Repr, DecidableEq

def JsErr.message : JsErr → String
  | .fault m => m
  | .typeFault m => m
  | .parseFault m => m

/-- JavaScript truthiness of a JSON value. -/
def jsTruthy : Json → Bool
  | .null => false
  | .jsUndefined => false
  | .bool b => b
  | .num n => n != 0
  | .str s => !s.isEmpty
  | .arr _ => true
  | .obj _ => true

/-- Property access `v.f` on a dynamic value: throws a `TypeError` when the
receiver is `undefined` or `null`, yields the field (or `undefined`) on an
object, and `undefined` on other primitives. -/
def jsGetF (v : Json) (f : String) : Except JsErr Json :=
  match v with
  | .jsUndefined => .error (.typeFault ("Cannot read properties of undefined (reading '" ++ f ++ "')"))
  | .null => .error (.typeFault ("Cannot read properties of null (reading '" ++ f ++ "')"))
  | .obj fields => .ok ((fields.lookup f).getD .jsUndefined)
  | _ => .ok .jsUndefined

/-- Property access on an already-validated plain object (the destructuring
of a schema-checked tool input) — total: missing fields read as
`undefined`, non-objects read as `undefined`. -/
def objGet (v : Json) (f : String) : Json :=
  match v with
  | .obj fields => (fields.lookup f).getD .jsUndefined
  | _ => .jsUndefined

/-- Method call `v.map(fn)`: maps over an array, throws a `TypeError` on
anything else (`undefined`/`null` receivers, or `.map` not a function). -/
def jsMapF (v : Json) (fn : Json → Except JsErr Json) : Except JsErr (List Json) :=
  match v with
  | .arr elems => elems.mapM fn
  | .jsUndefined => .error (.typeFault "Cannot read properties of undefined (reading 'map')")
  | .null => .error (.typeFault "Cannot read properties of null (reading 'map')")
  | _ => .error (.typeFault "map is not a function")

/-- JavaScript string coercion of an interpolated value, to the precision
the embedded path templates need. -/
def jsToStr : Json → String
  | .null => "null"
  | .jsUndefined => "undefined"
  | .bool b => if b then "true" else "false"
  | .num n => toString n
  | .str s => s
  | .arr _ => ""
  | .obj _ => "[object Object]"

mutual

/-- Compact `JSON.stringify` (string escaping not modelled; no theorem
inspects the produced text). -/
def jsonStringify : Json → String
  | .null => "null"
  | .jsUndefined => "undefined"
  | .bool b => if b then "true" else "false"
  | .num n => toString n
  | .str s => "\"" ++ s ++ "\""
  | .arr elems => "[" ++ jsonStringifyElems elems ++ "]"
  | .obj fields => "\x7b" ++ jsonStringifyFields fields ++ "\x7d"

def jsonStringifyElems : List Json → String
  | [] => ""
  | [e] => jsonStringify e
  | e :: rest => jsonStringify e ++ "," ++ jsonStringifyElems rest

def jsonStringifyFields : List (String × Json) → String
  | [] => ""
  | [(k, v)] => "\"" ++ k ++ "\":" ++ jsonStringify v
  | (k, v) :: rest => "\"" ++ k ++ "\":" ++ jsonStringify v ++ "," ++ jsonStringifyFields rest

end

/-! ## Gateway response handling

`GitHubApiClient.handleResponse` (src/app/_lib/clients/github/api.ts),
`AtlassianOAuthClient.get` (src/app/_lib/clients/atlassian/api.ts) and
`AtlassianRestClient.get` (src/src/clients/atlassian.api.ts). `JSON.parse`
(`response.json()`) is the explicit argument `parse : String → Option Json`;
every theorem that depends on it only assumes `parse "" = none`, the fact
that parsing an empty document fails with a `SyntaxError`. -/

/-- A fetch `Response`: status, status text, raw body text and final URL. -/
structure HttpResponse where
  status : Nat
  statusText : String
  body : String
  url : String
deriving Repr

/-- `Response.ok`: status in the inclusive range 200–299. -/
def httpOk (r : HttpResponse) : Bool :=
  200 ≤ r.status && r.status ≤ 299

/-- The error message `handleResponse` assembles for a non-2xx response:
`GitHub API error: <status> <statusText>`, extended with the parsed body's
`message` and `errors` fields when the body parses as JSON, or with the raw
body text otherwise. -/
def githubErrorMessage (parse : String → Option Json) (r : HttpResponse) : String :=
  let base := "GitHub API error: " ++ toString r.status ++ " " ++ r.statusText
  match parse r.body with
  | some errorData =>
    let withMsg :=
      match (errorData, "message") with
      | (.obj fields, f) =>
        match (fields.lookup f).getD .jsUndefined with
        | .str m => if m.isEmpty then base else base ++ " - " ++ m
        | v => if jsTruthy v then base ++ " - " ++ jsToStr v else base
      | _ => base
    match (errorData, "errors") with
    | (.obj fields, f) =>
      match (fields.lookup f).getD .jsUndefined with
      | .jsUndefined => withMsg
      | v => if jsTruthy v then withMsg ++ " - " ++ jsonStringify v else withMsg
    | _ => withMsg
  | none => if r.body.isEmpty then base else base ++ " - " ++ r.body

/-- `GitHubApiClient.handleResponse`: non-2xx throws
`Failed to <url>: <errorMessage>`; 204 resolves to `{}` without touching
the body; anything else is `response.json()`. -/
def GitHubApiClient.handleResponse (parse : String → Option Json)
    (r : HttpResponse) : Except JsErr Json :=
  if !httpOk r then
    .error (.fault ("Failed to " ++ r.url ++ ": " ++ githubErrorMessage parse r))
  else if r.status = 204 then
    .ok (Json.obj [])
  else
    match parse r.body with
    | some v => .ok v
    | none => .error (.parseFault "Unexpected end of JSON input")

/-- `AtlassianOAuthClient.get` response handling (the app/_lib client):
non-ok throws `Failed to GET <path>: <status> <statusText> - <body>`;
ok is `response.json()` unconditionally — no 204 / empty-body path. -/
def AtlassianOAuthClient.handleGet (parse : String → Option Json)
    (path : String) (r : HttpResponse) : Except JsErr Json :=
  if !httpOk r then
    .error (.fault ("Failed to GET " ++ path ++ ": " ++ toString r.status ++ " "
      ++ r.statusText ++ " - " ++ r.body))
  else
    match parse r.body with
    | some v => .ok v
    | none => .error (.parseFault "Unexpected end of JSON input")

/-- `AtlassianRestClient.get` response handling (the src/src client):
identical shape — ok is `response.json()` unconditionally. -/
def AtlassianRestClient.handleGet (parse : String → Option Json)
    (path : String) (r : HttpResponse) : Except JsErr Json :=
  if !httpOk r then
    .error (.fault ("Failed to GET " ++ path ++ ": " ++ toString r.status ++ " "
      ++ r.statusText ++ " - " ++ r.body))
  else
    match parse r.body with
    | some v => .ok v
    | none => .error (.parseFault "Unexpected end of JSON input")

/-- A concrete `JSON.parse` for closed counterexamples: fails on the empty
document, as `JSON.parse` does. -/
def parseEmptyFails : String → Option Json :=
  fun s => if s.isEmpty then none else some (Json.obj [])

/-- A 204 No Content response with an empty body. -/
def noContentResponse : HttpResponse :=
  { status := 204, statusText := "No Content", body := "",
    url := "https://api.atlassian.com/ex/jira/cloud/rest/api/3/myself" }

/-! ## Tool adapter

`createGitHubTools` (src/app/_lib/clients/github/tools.ts) and
`createAtlassianTools` (src/app/_lib/clients/atlassian/tools.ts). Every
tool's `execute` is `try { <build request; call client; project response> }
catch (error) { return { error: <label> + error.message } }`; `ToolSpec.run`
is that uniform shape, with the try-block body carried per tool. The
gateway clients (auth + fetch + response handling) are the explicit
`ApiOracle` argument; schema-validated tool input arrives as a `Json`
object. `encodeURIComponent` is modelled as the identity on the query text
(no theorem inspects encoded characters). -/

structure ApiRequest where
  method : String
  service : String
  path : String
  query : List (String × Json) := []
  body : Option Json := none
deriving Repr

def ApiOracle := ApiRequest → Except JsErr Json

def isUndef : Json → Bool
  | .jsUndefined => true
  | _ => false

/-- `array.join(',')` on a dynamic value (input-validated arrays only). -/
def jsJoinComma : Json → String
  | .arr es => String.intercalate "," (es.map jsToStr)
  | _ => ""

/-- The response projections the tool bodies apply, as data: each
constructor is one JavaScript projection idiom from the source
(`r.f`, `r.f.g`, nested object literals, `.map`, `x ? {...} : null`,
`x ? true : false`). -/
inductive ProjSpec where
  | get (f : String)
  | get2 (f g : String)
  | get3 (f g h : String)
  | lit (v : Json)
  | objP (fields : List (String × ProjSpec))
  | mapField (f : String) (elem : ProjSpec)
  | mapRoot (elem : ProjSpec)
  | condField (f : String) (sub : ProjSpec) (dflt : Json)
  | condField2 (f g : String) (sub : ProjSpec) (dflt : Json)
  | condBool (f : String)
deriving Repr

mutual

/-- Evaluate a projection against a response value, throwing exactly where
the JavaScript expression would (property reads on `undefined`/`null`,
`.map` on non-arrays). Object entries evaluate in literal order. -/
def evalProj : ProjSpec → Json → Except JsErr Json
  | .get f, r => jsGetF r f
  | .get2 f g, r => do jsGetF (← jsGetF r f) g
  | .get3 f g h, r => do jsGetF (← jsGetF (← jsGetF r f) g) h
  | .lit v, _ => pure v
  | .objP fields, r => do pure (Json.obj (← evalProjFields fields r))
  | .mapField f sub, r => do
    let arrv ← jsGetF r f
    match arrv with
    | .arr elems => do pure (Json.arr (← evalProjList sub elems))
    | .jsUndefined => .error (.typeFault "Cannot read properties of undefined (reading 'map')")
    | .null => .error (.typeFault "Cannot read properties of null (reading 'map')")
    | _ => .error (.typeFault "map is not a function")
  | .mapRoot sub, r =>
    match r with
    | .arr elems => do pure (Json.arr (← evalProjList sub elems))
    | .jsUndefined => .error (.typeFault "Cannot read properties of undefined (reading 'map')")
    | .null => .error (.typeFault "Cannot read properties of null (reading 'map')")
    | _ => .error (.typeFault "map is not a function")
  | .condField f sub dflt, r => do
    let v ← jsGetF r f
    if jsTruthy v then evalProj sub v else pure dflt
  | .condField2 f g sub dflt, r => do
    let v ← jsGetF (← jsGetF r f) g
    if jsTruthy v then evalProj sub v else pure dflt
  | .condBool f, r => do
    let v ← jsGetF r f
    pure (Json.bool (jsTruthy v))
termination_by spec _ => (sizeOf spec, 0)

def evalProjList : ProjSpec → List Json → Except JsErr (List Json)
  | _, [] => pure []
  | sub, e :: rest => do
    let v ← evalProj sub e
    let vs ← evalProjList sub rest
    pure (v :: vs)
termination_by sub elems => (sizeOf sub, elems.length + 1)

def evalProjFields : List (String × ProjSpec) → Json → Except JsErr (List (String × Json))
  | [], _ => pure []
  | (k, sub) :: rest, r => do
    let v ← evalProj sub r
    let vs ← evalProjFields rest r
    pure ((k, v) :: vs)
termination_by fields _ => (sizeOf fields, 0)

end

/-- One LLM-invocable tool: its name, the `Failed to ...: ` label of its
catch block, and the body of its try block. -/
structure ToolSpec where
  name : String
  failLabel : String
  body : ApiOracle → Json → Except JsErr Json

/-- The adapter boundary — the `execute` of every tool in the source:
run the try-block body; a thrown error is converted to
`{ error: <label><error.message> }` and returned as ordinary data. -/
def ToolSpec.run (t : ToolSpec) (oracle : ApiOracle) (input : Json) : Except JsErr Json :=
  match t.body oracle input with
  | .ok v => .ok v
  | .error e => .ok (Json.obj [("error", Json.str (t.failLabel ++ e.message))])

/-! ### GitHub tools (src/app/_lib/clients/github/tools.ts) -/

def searchRepositoriesTool : ToolSpec where
  name := "searchRepositories"
  failLabel := "Failed to search repositories: "
  body := fun oracle input => do
    let response ← oracle
      { method := "GET", service := "github", path := "/search/repositories",
        query := [("q", objGet input "query"), ("per_page", objGet input "perPage"),
            ("page", objGet input "page")]
          ++ (if jsTruthy (objGet input "sort") then [("sort", objGet input "sort")] else [])
          ++ (if jsTruthy (objGet input "order") then [("order", objGet input "order")] else []) }
    evalProj (.objP
      [("totalCount", .get "total_count"),
       ("incompleteResults", .get "incomplete_results"),
       ("items", .mapField "items" (.objP
         [("id", .get "id"), ("name", .get "name"), ("fullName", .get "full_name"),
          ("owner", .objP [("login", .get2 "owner" "login"), ("type", .get2 "owner" "type")]),
          ("description", .get "description"), ("private", .get "private"),
          ("htmlUrl", .get "html_url"), ("language", .get "language"),
          ("stargazersCount", .get "stargazers_count"), ("forksCount", .get "forks_count"),
          ("openIssuesCount", .get "open_issues_count"),
          ("createdAt", .get "created_at"), ("updatedAt", .get "updated_at")]))]) response

def getRepositoryTool : ToolSpec where
  name := "getRepository"
  failLabel := "Failed to get repository: "
  body := fun oracle input => do
    let response ← oracle
      { method := "GET", service := "github",
        path := "/repos/" ++ jsToStr (objGet input "owner") ++ "/" ++ jsToStr (objGet input "repo") }
    evalProj (.objP
      [("id", .get "id"), ("name", .get "name"), ("fullName", .get "full_name"),
       ("owner", .objP [("login", .get2 "owner" "login"), ("type", .get2 "owner" "type")]),
       ("description", .get "description"), ("private", .get "private"),
       ("htmlUrl", .get "html_url"), ("cloneUrl", .get "clone_url"),
       ("sshUrl", .get "ssh_url"), ("language", .get "language"),
       ("stargazersCount", .get "stargazers_count"), ("forksCount", .get "forks_count"),
       ("openIssuesCount", .get "open_issues_count"), ("defaultBranch", .get "default_branch"),
       ("topics", .get "topics"), ("createdAt", .get "created_at"),
       ("updatedAt", .get "updated_at"), ("pushedAt", .get "pushed_at")]) response

def createRepositoryTool : ToolSpec where
  name := "createRepository"
  failLabel := "Failed to create repository: "
  body := fun oracle input => do
    let data := Json.obj
      ([("name", objGet input "name"), ("private", objGet input "private"),
        ("auto_init", objGet input "autoInit")]
       ++ (if jsTruthy (objGet input "description")
           then [("description", objGet input "description")] else [])
       ++ (if jsTruthy (objGet input "gitignoreTemplate")
           then [("gitignore_template", objGet input "gitignoreTemplate")] else [])
       ++ (if jsTruthy (objGet input "licenseTemplate")
           then [("license_template", objGet input "licenseTemplate")] else []))
    let response ← oracle
      { method := "POST", service := "github", path := "/user/repos", body := some data }
    evalProj (.objP
      [("id", .get "id"), ("name", .get "name"), ("fullName", .get "full_name"),
       ("htmlUrl", .get "html_url"), ("cloneUrl", .get "clone_url"),
       ("sshUrl", .get "ssh_url"), ("private", .get "private"),
       ("createdAt", .get "created_at")]) response

def searchIssuesTool : ToolSpec where
  name := "searchIssues"
  failLabel := "Failed to search issues: "
  body := fun oracle input => do
    let response ← oracle
      { method := "GET", service := "github", path := "/search/issues",
        query := [("q", objGet input "query"), ("per_page", objGet input "perPage"),
            ("page", objGet input "page")]
          ++ (if jsTruthy (objGet input "sort") then [("sort", objGet input "sort")] else [])
          ++ (if jsTruthy (objGet input "order") then [("order", objGet input "order")] else []) }
    evalProj (.objP
      [("totalCount", .get "total_count"),
       ("incompleteResults", .get "incomplete_results"),
       ("items", .mapField "items" (.objP
         [("id", .get "id"), ("number", .get "number"), ("title", .get "title"),
          ("state", .get "state"),
          ("user", .objP [("login", .get2 "user" "login"), ("type", .get2 "user" "type")]),
          ("labels", .mapField "labels"
            (.objP [("name", .get "name"), ("color", .get "color")])),
          ("assignees", .mapField "assignees" (.objP [("login", .get "login")])),
          ("comments", .get "comments"), ("createdAt", .get "created_at"),
          ("updatedAt", .get "updated_at"), ("closedAt", .get "closed_at"),
          ("htmlUrl", .get "html_url"), ("pullRequest", .condBool "pull_request")]))]) response

def getIssueTool : ToolSpec where
  name := "getIssue"
  failLabel := "Failed to get issue: "
  body := fun oracle input => do
    let response ← oracle
      { method := "GET", service := "github",
        path := "/repos/" ++ jsToStr (objGet input "owner") ++ "/"
          ++ jsToStr (objGet input "repo") ++ "/issues/"
          ++ jsToStr (objGet input "issueNumber") }
    evalProj (.objP
      [("id", .get "id"), ("number", .get "number"), ("title", .get "title"),
       ("body", .get "body"), ("state", .get "state"),
       ("user", .objP [("login", .get2 "user" "login"), ("type", .get2 "user" "type")]),
       ("labels", .mapField "labels" (.objP
         [("name", .get "name"), ("color", .get "color"), ("description", .get "description")])),
       ("assignees", .mapField "assignees" (.objP [("login", .get "login")])),
       ("milestone", .condField "milestone"
         (.objP [("title", .get "title"), ("number", .get "number")]) .null),
       ("comments", .get "comments"), ("createdAt", .get "created_at"),
       ("updatedAt", .get "updated_at"), ("closedAt", .get "closed_at"),
       ("htmlUrl", .get "html_url")]) response

def createIssueTool : ToolSpec where
  name := "createIssue"
  failLabel := "Failed to create issue: "
  body := fun oracle input => do
    let data := Json.obj
      ([("title", objGet input "title")]
       ++ (if jsTruthy (objGet input "body") then [("body", objGet input "body")] else [])
       ++ (if jsTruthy (objGet input "labels") then [("labels", objGet input "labels")] else [])
       ++ (if jsTruthy (objGet input "assignees")
           then [("assignees", objGet input "assignees")] else [])
       ++ (if jsTruthy (objGet input "milestone")
           then [("milestone", objGet input "milestone")] else []))
    let response ← oracle
      { method := "POST", service := "github",
        path := "/repos/" ++ jsToStr (objGet input "owner") ++ "/"
          ++ jsToStr (objGet input "repo") ++ "/issues",
        body := some data }
    evalProj (.objP
      [("id", .get "id"), ("number", .get "number"), ("title", .get "title"),
       ("state", .get "state"), ("htmlUrl", .get "html_url"),
       ("createdAt", .get "created_at")]) response

def updateIssueTool : ToolSpec where
  name := "updateIssue"
  failLabel := "Failed to update issue: "
  body := fun oracle input => do
    let data := Json.obj
      ((if !isUndef (objGet input "title") then [("title", objGet input "title")] else [])
       ++ (if !isUndef (objGet input "body") then [("body", objGet input "body")] else [])
       ++ (if !isUndef (objGet input "state") then [("state", objGet input "state")] else [])
       ++ (if !isUndef (objGet input "labels") then [("labels", objGet input "labels")] else [])
       ++ (if !isUndef (objGet input "assignees")
           then [("assignees", objGet input "assignees")] else [])
       ++ (if !isUndef (objGet input "milestone")
           then [("milestone", objGet input "milestone")] else []))
    let response ← oracle
      { method := "PATCH", service := "github",
        path := "/repos/" ++ jsToStr (objGet input "owner") ++ "/"
          ++ jsToStr (objGet input "repo") ++ "/issues/"
          ++ jsToStr (objGet input "issueNumber"),
        body := some data }
    evalProj (.objP
      [("id", .get "id"), ("number", .get "number"), ("title", .get "title"),
       ("state", .get "state"), ("htmlUrl", .get "html_url"),
       ("updatedAt", .get "updated_at")]) response

def listPullRequestsTool : ToolSpec where
  name := "listPullRequests"
  failLabel := "Failed to list pull requests: "
  body := fun oracle input => do
    let response ← oracle
      { method := "GET", service := "github",
        path := "/repos/" ++ jsToStr (objGet input "owner") ++ "/"
          ++ jsToStr (objGet input "repo") ++ "/pulls",
        query := [("state", objGet input "state"), ("sort", objGet input "sort"),
            ("direction", objGet input "direction"), ("per_page", objGet input "perPage"),
            ("page", objGet input "page")]
          ++ (if jsTruthy (objGet input "head") then [("head", objGet input "head")] else [])
          ++ (if jsTruthy (objGet input "base") then [("base", objGet input "base")] else []) }
    evalProj (.objP
      [("pullRequests", .mapRoot (.objP
        [("id", .get "id"), ("number", .get "number"), ("title", .get "title"),
         ("state", .get "state"), ("user", .objP [("login", .get2 "user" "login")]),
         ("head", .objP [("ref", .get2 "head" "ref"), ("sha", .get2 "head" "sha")]),
         ("base", .objP [("ref", .get2 "base" "ref"), ("sha", .get2 "base" "sha")]),
         ("draft", .get "draft"), ("merged", .get "merged"), ("mergeable", .get "mergeable"),
         ("createdAt", .get "created_at"), ("updatedAt", .get "updated_at"),
         ("closedAt", .get "closed_at"), ("mergedAt", .get "merged_at"),
         ("htmlUrl", .get "html_url")]))]) response

def getPullRequestTool : ToolSpec where
  name := "getPullRequest"
  failLabel := "Failed to get pull request: "
  body := fun oracle input => do
    let response ← oracle
      { method := "GET", service := "github",
        path := "/repos/" ++ jsToStr (objGet input "owner") ++ "/"
          ++ jsToStr (objGet input "repo") ++ "/pulls/"
          ++ jsToStr (objGet input "pullNumber") }
    evalProj (.objP
      [("id", .get "id"), ("number", .get "number"), ("title", .get "title"),
       ("body", .get "body"), ("state", .get "state"),
       ("user", .objP [("login", .get2 "user" "login")]),
       ("head", .objP
         [("ref", .get2 "head" "ref"), ("sha", .get2 "head" "sha"),
          ("repo", .condField2 "head" "repo"
            (.objP [("name", .get "name"), ("fullName", .get "full_name")]) .null)]),
       ("base", .objP
         [("ref", .get2 "base" "ref"), ("sha", .get2 "base" "sha"),
          ("repo", .objP [("name", .get3 "base" "repo" "name"),
            ("fullName", .get3 "base" "repo" "full_name")])]),
       ("draft", .get "draft"), ("merged", .get "merged"), ("mergeable", .get "mergeable"),
       ("mergeableState", .get "mergeable_state"),
       ("mergedBy", .condField "merged_by" (.objP [("login", .get "login")]) .null),
       ("comments", .get "comments"), ("reviewComments", .get "review_comments"),
       ("commits", .get "commits"), ("additions", .get "additions"),
       ("deletions", .get "deletions"), ("changedFiles", .get "changed_files"),
       ("createdAt", .get "created_at"), ("updatedAt", .get "updated_at"),
       ("closedAt", .get "closed_at"), ("mergedAt", .get "merged_at"),
       ("htmlUrl", .get "html_url")]) response

def createPullRequestTool : ToolSpec where
  name := "createPullRequest"
  failLabel := "Failed to create pull request: "
  body := fun oracle input => do
    let data := Json.obj
      ([("title", objGet input "title"), ("head", objGet input "head"),
        ("base", objGet input "base"), ("draft", objGet input "draft")]
       ++ (if jsTruthy (objGet input "body") then [("body", objGet input "body")] else []))
    let response ← oracle
      { method := "POST", service := "github",
        path := "/repos/" ++ jsToStr (objGet input "owner") ++ "/"
          ++ jsToStr (objGet input "repo") ++ "/pulls",
        body := some data }
    evalProj (.objP
      [("id", .get "id"), ("number", .get "number"), ("title", .get "title"),
       ("state", .get "state"), ("htmlUrl", .get "html_url"),
       ("createdAt", .get "created_at")]) response

def getUserTool : ToolSpec where
  name := "getUser"
  failLabel := "Failed to get user: "
  body := fun oracle input => do
    let response ← oracle
      { method := "GET", service := "github",
        path := "/users/" ++ jsToStr (objGet input "username") }
    evalProj (.objP
      [("id", .get "id"), ("login", .get "login"), ("name", .get "name"),
       ("email", .get "email"), ("bio", .get "bio"), ("company", .get "company"),
       ("location", .get "location"), ("blog", .get "blog"),
       ("publicRepos", .get "public_repos"), ("publicGists", .get "public_gists"),
       ("followers", .get "followers"), ("following", .get "following"),
       ("createdAt", .get "created_at"), ("updatedAt", .get "updated_at"),
       ("htmlUrl", .get "html_url")]) response

def listBranchesTool : ToolSpec where
  name := "listBranches"
  failLabel := "Failed to list branches: "
  body := fun oracle input => do
    let response ← oracle
      { method := "GET", service := "github",
        path := "/repos/" ++ jsToStr (objGet input "owner") ++ "/"
          ++ jsToStr (objGet input "repo") ++ "/branches",
        query := [("per_page", objGet input "perPage"), ("page", objGet input "page")]
          ++ (if !isUndef (objGet input "protected")
              then [("protected", objGet input "protected")] else []) }
    evalProj (.objP
      [("branches", .mapRoot (.objP
        [("name", .get "name"),
         ("commit", .objP [("sha", .get2 "commit" "sha"), ("url", .get2 "commit" "url")]),
         ("protected", .get "protected")]))]) response

def listCommitsTool : ToolSpec where
  name := "listCommits"
  failLabel := "Failed to list commits: "
  body := fun oracle input => do
    let response ← oracle
      { method := "GET", service := "github",
        path := "/repos/" ++ jsToStr (objGet input "owner") ++ "/"
          ++ jsToStr (objGet input "repo") ++ "/commits",
        query := [("per_page", objGet input "perPage"), ("page", objGet input "page")]
          ++ (if jsTruthy (objGet input "sha") then [("sha", objGet input "sha")] else [])
          ++ (if jsTruthy (objGet input "path") then [("path", objGet input "path")] else [])
          ++ (if jsTruthy (objGet input "author") then [("author", objGet input "author")] else [])
          ++ (if jsTruthy (objGet input "since") then [("since", objGet input "since")] else [])
          ++ (if jsTruthy (objGet input "until") then [("until", objGet input "until")] else []) }
    evalProj (.objP
      [("commits", .mapRoot (.objP
        [("sha", .get "sha"), ("message", .get2 "commit" "message"),
         ("author", .objP
           [("name", .get3 "commit" "author" "name"),
            ("email", .get3 "commit" "author" "email"),
            ("date", .get3 "commit" "author" "date")]),
         ("committer", .objP
           [("name", .get3 "commit" "committer" "name"),
            ("email", .get3 "commit" "committer" "email"),
            ("date", .get3 "commit" "committer" "date")]),
         ("htmlUrl", .get "html_url")]))]) response

/-- The tool table of `createGitHubTools`, in source order. -/
def createGitHubTools : List ToolSpec :=
  [searchRepositoriesTool, getRepositoryTool, createRepositoryTool,
   searchIssuesTool, getIssueTool, createIssueTool, updateIssueTool,
   listPullRequestsTool, getPullRequestTool, createPullRequestTool,
   getUserTool, listBranchesTool, listCommitsTool]

/-! ### Atlassian tools (src/app/_lib/clients/atlassian/tools.ts) -/

def searchJiraIssuesTool : ToolSpec where
  name := "searchJiraIssues"
  failLabel := "Failed to search Jira issues: "
  body := fun oracle input => do
    let fieldsv := objGet input "fields"
    let fieldsParam :=
      if jsTruthy fieldsv then jsJoinComma fieldsv
      else "summary,status,assignee,reporter,created,updated,priority,labels,components,issuetype,description"
    let response ← oracle
      { method := "GET", service := "jira",
        path := "rest/api/3/search?jql=" ++ jsToStr (objGet input "jql")
          ++ "&maxResults=" ++ jsToStr (objGet input "maxResults")
          ++ "&fields=" ++ fieldsParam }
    evalProj (.objP
      [("total", .get "total"),
       ("issues", .mapField "issues" (.objP
         [("key", .get "key"), ("id", .get "id"), ("fields", .get "fields"),
          ("self", .get "self")]))]) response

def getJiraIssueTool : ToolSpec where
  name := "getJiraIssue"
  failLabel := "Failed to get Jira issue: "
  body := fun oracle input => do
    let fieldsv := objGet input "fields"
    let fieldsParam := if jsTruthy fieldsv then "?fields=" ++ jsJoinComma fieldsv else ""
    let response ← oracle
      { method := "GET", service := "jira",
        path := "rest/api/3/issue/" ++ jsToStr (objGet input "issueKey") ++ fieldsParam }
    evalProj (.objP
      [("key", .get "key"), ("id", .get "id"), ("fields", .get "fields"),
       ("self", .get "self")]) response

def createJiraIssueTool : ToolSpec where
  name := "createJiraIssue"
  failLabel := "Failed to create Jira issue: "
  body := fun oracle input => do
    let desc := objGet input "description"
    let descField :=
      if jsTruthy desc then
        [("description", Json.obj
          [("type", .str "doc"), ("version", .num 1),
           ("content", .arr [Json.obj
             [("type", .str "paragraph"),
              ("content", .arr [Json.obj [("type", .str "text"), ("text", desc)]])]])])]
      else []
    let prio := objGet input "priority"
    let prioField := if jsTruthy prio then [("priority", Json.obj [("name", prio)])] else []
    let assg := objGet input "assignee"
    let assgField := if jsTruthy assg then [("assignee", Json.obj [("accountId", assg)])] else []
    let labels := objGet input "labels"
    let labelsField := if jsTruthy labels then [("labels", labels)] else []
    let comps := objGet input "components"
    let compsField ←
      if jsTruthy comps then do
        let mapped ← jsMapF comps (fun id => pure (Json.obj [("id", id)]))
        pure [("components", Json.arr mapped)]
      else pure []
    let issueData := Json.obj [("fields", Json.obj
      ([("project", Json.obj [("key", objGet input "projectKey")]),
        ("summary", objGet input "summary"),
        ("issuetype", Json.obj [("name", objGet input "issueType")])]
       ++ descField ++ prioField ++ assgField ++ labelsField ++ compsField))]
    let response ← oracle
      { method := "POST", service := "jira", path := "rest/api/3/issue",
        body := some issueData }
    evalProj (.objP
      [("key", .get "key"), ("id", .get "id"), ("self", .get "self")]) response

def searchConfluenceContentTool : ToolSpec where
  name := "searchConfluenceContent"
  failLabel := "Failed to search Confluence content: "
  body := fun oracle input => do
    let cql := jsToStr (objGet input "cql")
    let spaceKey := objGet input "spaceKey"
    let finalCql :=
      if jsTruthy spaceKey then cql ++ " AND space=\"" ++ jsToStr spaceKey ++ "\"" else cql
    let response ← oracle
      { method := "GET", service := "confluence",
        path := "rest/api/content/search?cql=" ++ finalCql
          ++ "&limit=" ++ jsToStr (objGet input "limit") }
    evalProj (.objP
      [("size", .get "size"),
       ("results", .mapField "results" (.objP
         [("id", .get "id"), ("type", .get "type"), ("status", .get "status"),
          ("title", .get "title"), ("space", .get "space"), ("version", .get "version"),
          ("webUrl", .get2 "_links" "webui")]))]) response

def getConfluencePageTool : ToolSpec where
  name := "getConfluencePage"
  failLabel := "Failed to get Confluence page: "
  body := fun oracle input => do
    let expand := objGet input "expand"
    let expandParam :=
      if jsTruthy expand then "?expand=" ++ jsJoinComma expand
      else "?expand=body.storage,version"
    let response ← oracle
      { method := "GET", service := "confluence",
        path := "rest/api/content/" ++ jsToStr (objGet input "pageId") ++ expandParam }
    evalProj (.objP
      [("id", .get "id"), ("type", .get "type"), ("status", .get "status"),
       ("title", .get "title"), ("space", .get "space"), ("version", .get "version"),
       ("body", .get "body"), ("webUrl", .get2 "_links" "webui")]) response

def createConfluencePageTool : ToolSpec where
  name := "createConfluencePage"
  failLabel := "Failed to create Confluence page: "
  body := fun oracle input => do
    let parentId := objGet input "parentId"
    let pageData := Json.obj
      ([("type", .str "page"), ("title", objGet input "title"),
        ("space", Json.obj [("key", objGet input "spaceKey")]),
        ("body", Json.obj [("storage", Json.obj
          [("value", objGet input "content"), ("representation", .str "storage")])])]
       ++ (if jsTruthy parentId
           then [("ancestors", Json.arr [Json.obj [("id", parentId)]])] else []))
    let response ← oracle
      { method := "POST", service := "confluence", path := "rest/api/content",
        body := some pageData }
    evalProj (.objP
      [("id", .get "id"), ("type", .get "type"), ("status", .get "status"),
       ("title", .get "title"), ("space", .get "space"), ("version", .get "version"),
       ("webUrl", .get2 "_links" "webui")]) response

/-- JavaScript `version + 1` on the validated numeric input field. -/
def jsIncr : Json → Json
  | .num n => .num (n + 1)
  | v => v

def updateConfluencePageTool : ToolSpec where
  name := "updateConfluencePage"
  failLabel := "Failed to update Confluence page: "
  body := fun oracle input => do
    let updateData := Json.obj
      [("version", Json.obj [("number", jsIncr (objGet input "version"))]),
       ("title", objGet input "title"), ("type", .str "page"),
       ("body", Json.obj [("storage", Json.obj
         [("value", objGet input "content"), ("representation", .str "storage")])])]
    let response ← oracle
      { method := "PUT", service := "confluence",
        path := "rest/api/content/" ++ jsToStr (objGet input "pageId"),
        body := some updateData }
    evalProj (.objP
      [("id", .get "id"), ("type", .get "type"), ("status", .get "status"),
       ("title", .get "title"), ("space", .get "space"), ("version", .get "version"),
       ("webUrl", .get2 "_links" "webui")]) response

/-- The tool table of `createAtlassianTools`, in source order. -/
def createAtlassianTools : List ToolSpec :=
  [searchJiraIssuesTool, getJiraIssueTool, createJiraIssueTool,
   searchConfluenceContentTool, getConfluencePageTool,
   createConfluencePageTool, updateConfluencePageTool]

/-- Every tool the adapter exposes. -/
def allAdapterTools : List ToolSpec :=
  createGitHubTools ++ createAtlassianTools

/-! ## Prompt templates and the document assembly pipeline

`generatePrompt` / `formatFileStructure` (src/app/_lib/prompts/templates.ts),
`LLMService.generateText` (src/src/services/llm.service.ts) and
`DocumentService.generateDocument` (src/src/services/document.service.ts).
The `ai` SDK `generateText` call is the explicit `backend` argument;
`new Date().toISOString()` is the explicit `nowIso` argument. `JiraIssue`,
`GitHubRepository`, `FileNode`, `DocumentContent` and `DocumentSection` are
the interfaces of src/app/_types/index.ts. -/

structure JiraIssue where
  key : String
  summary : String
  description : Option String := none
  issueType : String
  status : String
  assignee : Option String := none
  reporter : Option String := none
  created : String := ""
  updated : String := ""
  priority : Option String := none
  labels : Option (List String) := none
  components : Option (List String) := none
deriving Repr

inductive FileNode where
  | mk (path : String) (type : String) (content : Option String)
       (children : Option (List FileNode))
deriving Repr

structure GitHubRepository where
  owner : String
  name : String
  description : Option String := none
  fileTree : List FileNode
  readme : Option String := none
deriving Repr

structure DocumentSection where
  title : String
  content : String
  type : String
deriving Repr, DecidableEq

structure DocumentMetadata where
  generatedAt : String
  githubRepo : String
  jiraProject : String
  llmProvider : String
  llmModel : String
deriving Repr, DecidableEq

structure DocumentContent where
  title : String
  sections : List DocumentSection
  metadata : DocumentMetadata
deriving Repr, DecidableEq

/-- JavaScript `x || d` on an optional string (`description || 'なし'`). -/
def jsOrStr (x : Option String) (d : String) : String :=
  match x with
  | none => d
  | some s => if s.isEmpty then d else s

/-- `labels?.join(', ') || 'なし'`. -/
def jsJoinOr (x : Option (List String)) (d : String) : String :=
  match x with
  | none => d
  | some ls =>
    let j := String.intercalate ", " ls
    if j.isEmpty then d else j

/-- `formatFileStructure(structure, indent = '')`: directories before their
children, depth-first, with 📁/📄 markers. -/
def formatFileStructure : List FileNode → String → String
  | [], _ => ""
  | FileNode.mk path type _ children :: rest, indent =>
    (if type = "directory" then
      indent ++ "📁 " ++ path ++ "/\n" ++
        (match children with
         | some cs => formatFileStructure cs (indent ++ "  ")
         | none => "")
     else indent ++ "📄 " ++ path ++ "\n")
    ++ formatFileStructure rest indent

/-- The five prompt kinds of `generatePrompt` — the closed TypeScript union
`'overview' | 'requirements' | 'architecture' | 'dataflow' | 'technical'`. -/
inductive PromptType where
  | overview
  | requirements
  | architecture
  | dataflow
  | technical
deriving Repr, DecidableEq

/-- `generatePrompt(type, { githubData, jiraIssues })`: the five template
strings, with `${...}` interpolation written as concatenation. -/
def generatePrompt (type : PromptType) (githubData : GitHubRepository)
    (jiraIssues : List JiraIssue) : String :=
  match type with
  | .overview =>
    "\n以下の情報を基に、プロジェクトの概要を日本語で作成してください。\n\n"
    ++ "GitHubリポジトリ情報:\n- リポジトリ名: " ++ githubData.owner ++ "/" ++ githubData.name
    ++ "\n- 説明: " ++ jsOrStr githubData.description "なし"
    ++ "\n- README: " ++ jsOrStr githubData.readme "なし"
    ++ "\n\nJira課題一覧:\n"
    ++ String.intercalate "\n" (jiraIssues.map fun issue =>
         "\n- " ++ issue.key ++ ": " ++ issue.summary
         ++ "\n  タイプ: " ++ issue.issueType
         ++ "\n  ステータス: " ++ issue.status
         ++ "\n  説明: " ++ jsOrStr issue.description "なし" ++ "\n")
    ++ "\n\n以下の項目を含めてください:\n1. プロジェクトの目的と背景\n"
    ++ "2. 主要な機能と特徴\n3. ターゲットユーザー\n4. プロジェクトの現在の状態\n"
  | .requirements =>
    "\n以下のJira課題情報から、システムの要件定義を日本語で整理してください。\n\n"
    ++ "Jira課題一覧:\n"
    ++ String.intercalate "\n" (jiraIssues.map fun issue =>
         "\n- " ++ issue.key ++ ": " ++ issue.summary
         ++ "\n  タイプ: " ++ issue.issueType
         ++ "\n  優先度: " ++ jsOrStr issue.priority "未設定"
         ++ "\n  説明: " ++ jsOrStr issue.description "なし"
         ++ "\n  ラベル: " ++ jsJoinOr issue.labels "なし" ++ "\n")
    ++ "\n\n以下の形式で整理してください:\n1. 機能要件\n   - 必須機能\n   - 推奨機能\n"
    ++ "2. 非機能要件\n   - パフォーマンス要件\n   - セキュリティ要件\n   - 可用性要件\n"
    ++ "3. 制約事項\n"
  | .architecture =>
    "\n以下のGitHubリポジトリ構造を分析し、システムアーキテクチャを日本語で説明してください。\n\n"
    ++ "リポジトリ構造:\n" ++ formatFileStructure githubData.fileTree ""
    ++ "\n以下の観点から説明してください:\n1. アプリケーション構造（レイヤー、モジュール構成）\n"
    ++ "2. 使用している主要な技術スタック\n3. デザインパターン\n4. 外部システムとの連携\n"
    ++ "5. データストレージ構成\n"
  | .dataflow =>
    "\n以下の情報を基に、システムのデータフローを日本語で説明してください。\n\n"
    ++ "GitHubリポジトリ構造:\n" ++ formatFileStructure githubData.fileTree ""
    ++ "\nJira課題（機能関連）:\n"
    ++ String.intercalate "\n"
         ((jiraIssues.filter fun issue =>
             issue.issueType = "Story" || issue.issueType = "Task").map fun issue =>
           "\n- " ++ issue.summary ++ "\n")
    ++ "\n\n以下の内容を含めてください:\n1. 主要なデータの流れ\n2. ユーザーインタラクションフロー\n"
    ++ "3. システム間のデータ連携\n4. データ処理のシーケンス\n5. エラーハンドリングフロー\n"
  | .technical =>
    "\n以下の情報を基に、技術的な実装詳細を日本語で説明してください。\n\n"
    ++ "コードサンプル:\n"
    ++ String.intercalate "\n"
         (((githubData.fileTree.filter fun node =>
              match node with
              | .mk _ type content _ => type = "file" && !(jsOrStr content "").isEmpty).take 3).map
           fun node =>
             match node with
             | .mk path _ content _ =>
               "\nファイル: " ++ path ++ "\n```\n"
               ++ (content.getD "").take 200 ++ "...\n```\n")
    ++ "\n\n以下の項目について説明してください:\n1. 主要なコンポーネントの実装詳細\n"
    ++ "2. 重要なアルゴリズムやロジック\n3. セキュリティ実装\n4. パフォーマンス最適化\n"
    ++ "5. テスト戦略\n6. デプロイメント構成\n"

/-- One request to the text-generation backend. -/
structure GenRequest where
  provider : String
  model : String
  prompt : String
  systemPrompt : String
deriving Repr, DecidableEq

/-- `LLMService.generateText`: calls the `ai` SDK (the `backend` argument)
and wraps any thrown error as
`Failed to generate text: <message>` — the `GenerationFailure` of the
taxonomy. -/
def LLMService.generateText (backend : GenRequest → Except String String)
    (req : GenRequest) : Except String String :=
  match backend req with
  | .ok text => .ok text
  | .error m => .error ("Failed to generate text: " ++ m)

/-- The parameters of `DocumentService.generateDocument`. -/
structure GenParams where
  githubData : GitHubRepository
  jiraIssues : List JiraIssue
  llmProvider : String
  llmModel : String
deriving Repr

def overviewRequest (p : GenParams) : GenRequest :=
  { provider := p.llmProvider, model := p.llmModel,
    prompt := generatePrompt .overview p.githubData p.jiraIssues,
    systemPrompt := "You are a technical documentation expert. Generate clear, concise, and professional documentation." }

def requirementsRequest (p : GenParams) : GenRequest :=
  { provider := p.llmProvider, model := p.llmModel,
    prompt := generatePrompt .requirements p.githubData p.jiraIssues,
    systemPrompt := "You are a requirements analyst. Extract and organize requirements from the provided information." }

def architectureRequest (p : GenParams) : GenRequest :=
  { provider := p.llmProvider, model := p.llmModel,
    prompt := generatePrompt .architecture p.githubData p.jiraIssues,
    systemPrompt := "You are a software architect. Analyze the codebase and describe the system architecture." }

def dataflowRequest (p : GenParams) : GenRequest :=
  { provider := p.llmProvider, model := p.llmModel,
    prompt := generatePrompt .dataflow p.githubData p.jiraIssues,
    systemPrompt := "You are a system analyst. Describe the data flow and interactions within the system." }

def technicalRequest (p : GenParams) : GenRequest :=
  { provider := p.llmProvider, model := p.llmModel,
    prompt := generatePrompt .technical p.githubData p.jiraIssues,
    systemPrompt := "You are a senior developer. Provide technical implementation details and best practices." }

/-- The five generation steps, in pipeline order. -/
def sectionRequests (p : GenParams) : List GenRequest :=
  [overviewRequest p, requirementsRequest p, architectureRequest p,
   dataflowRequest p, technicalRequest p]

/-- `key.split('-')[0]`: the prefix of the key before its first hyphen
(the whole key when it has none). -/
def jsSplitHead (key : String) : String :=
  String.mk (key.data.takeWhile fun c => c != '-')

/-- `jiraIssues[0]?.key.split('-')[0] || 'Unknown'`. -/
def jsJiraProject (jiraIssues : List JiraIssue) : String :=
  match jiraIssues with
  | [] => "Unknown"
  | issue :: _ =>
    let first := jsSplitHead issue.key
    if first.isEmpty then "Unknown" else first

/-- `DocumentService.generateDocument`: five sequential generation calls,
each appending its section; any throw aborts the run (nothing is returned);
on success the `DocumentContent` aggregate is assembled. -/
def DocumentService.generateDocument (backend : GenRequest → Except String String)
    (nowIso : String) (p : GenParams) : Except String DocumentContent := do
  let overviewContent ← LLMService.generateText backend (overviewRequest p)
  let requirementsContent ← LLMService.generateText backend (requirementsRequest p)
  let architectureContent ← LLMService.generateText backend (architectureRequest p)
  let dataflowContent ← LLMService.generateText backend (dataflowRequest p)
  let technicalContent ← LLMService.generateText backend (technicalRequest p)
  pure
    { title := p.githubData.owner ++ "/" ++ p.githubData.name ++ " - 仕様書",
      sections :=
        [{ title := "プロジェクト概要", content := overviewContent, type := "overview" },
         { title := "要件定義", content := requirementsContent, type := "requirements" },
         { title := "システムアーキテクチャ", content := architectureContent, type := "architecture" },
         { title := "データフロー", content := dataflowContent, type := "dataflow" },
         { title := "技術詳細", content := technicalContent, type := "technical-details" }],
      metadata :=
        { generatedAt := nowIso,
          githubRepo := p.githubData.owner ++ "/" ++ p.githubData.name,
          jiraProject := jsJiraProject p.jiraIssues,
          llmProvider := p.llmProvider,
          llmModel := p.llmModel } }

/-! ## Markdown to Confluence conversion

`DocumentService.markdownToConfluence` (src/src/services/document.service.ts):
six global regex substitutions applied in source order — h3, h2, h1 headers
(per line), bold `**...**`, italic `*...*`, fenced code blocks with optional
language tag, inline code, then `\n` → `<br/>\n`. Each substitution is
modelled on `List Char` with JavaScript regex semantics: leftmost match,
lazy (shortest) quantifiers, `.` not matching a newline, the scan resuming
after each replacement. -/

/-- Split at every occurrence of `sep` (JavaScript `split` semantics). -/
def splitOnChar (sep : Char) : List Char → List (List Char)
  | [] => [[]]
  | c :: cs =>
    match splitOnChar sep cs with
    | [] => [[c]]
    | l :: ls => if c = sep then [] :: l :: ls else (c :: l) :: ls

/-- Re-join lines with `sep` — inverse of `splitOnChar`. -/
def joinChar (sep : Char) : List (List Char) → List Char
  | [] => []
  | [l] => l
  | l :: ls => l ++ sep :: joinChar sep ls

/-- One header substitution `replace(/^<marker>(.*$)/gim, '<tag>$1</tag>')`:
on every line starting with `marker` (the hashes plus a space), the line
becomes the tag pair around the rest of the line. -/
def headerSub (marker openT closeT : List Char) (cs : List Char) : List Char :=
  joinChar '\n' ((splitOnChar '\n' cs).map fun line =>
    if marker.isPrefixOf line then openT ++ line.drop marker.length ++ closeT
    else line)

/-- The three header substitutions in source order: `###`, then `##`,
then `#`. -/
def subHeaders (cs : List Char) : List Char :=
  headerSub ('#' :: [' ']) ("<h1>".data) ("</h1>".data)
    (headerSub ('#' :: '#' :: [' ']) ("<h2>".data) ("</h2>".data)
      (headerSub ('#' :: '#' :: '#' :: [' ']) ("<h3>".data) ("</h3>".data) cs))

/-- Lazy `(.+?)` up to `close`: the shortest non-empty newline-free prefix
after which `close` occurs; yields the content and the text after `close`. -/
def lazySplit (close : List Char) : List Char → Option (List Char × List Char)
  | [] => none
  | c :: cs =>
    if c = '\n' then none
    else if close.isPrefixOf cs then some ([c], cs.drop close.length)
    else
      match lazySplit close cs with
      | some (content, rest) => some (c :: content, rest)
      | none => none

/-- One delimiter-pair substitution `replace(/<d>(.+?)<d>/g, '<t>$1</t>')`
(bold, italic, inline code), scanning left to right and resuming after each
replacement. The delimiter is `d :: ds`; the fuel (initially the text
length) bounds the scan and is never exhausted. -/
def subDelimGo (d : Char) (ds openT closeT : List Char) : Nat → List Char → List Char
  | _, [] => []
  | 0, l => l
  | fuel + 1, c :: cs =>
    if c = d ∧ ds.isPrefixOf cs then
      match lazySplit (d :: ds) (cs.drop ds.length) with
      | some (content, rest) =>
        openT ++ content ++ closeT ++ subDelimGo d ds openT closeT fuel rest
      | none => c :: subDelimGo d ds openT closeT fuel cs
    else c :: subDelimGo d ds openT closeT fuel cs

def subDelim (d : Char) (ds openT closeT : List Char) (cs : List Char) : List Char :=
  subDelimGo d ds openT closeT cs.length cs

/-- `\w` of the fence regex: letters, digits, underscore (ASCII). -/
def isWordChar (c : Char) : Bool :=
  ('a' ≤ c && c ≤ 'z') || ('A' ≤ c && c ≤ 'Z') || ('0' ≤ c && c ≤ '9') || c = '_'

/-- Greedy `(\w+)?`: the maximal word-character prefix and the rest. -/
def takeWord : List Char → List Char × List Char
  | [] => ([], [])
  | c :: cs =>
    if isWordChar c then
      let (w, rest) := takeWord cs
      (c :: w, rest)
    else ([], c :: cs)

/-- Lazy `([\s\S]*?)` up to `close`: the shortest (possibly empty) prefix —
newlines allowed — after which `close` occurs. -/
def lazySplitAny (close : List Char) (l : List Char) : Option (List Char × List Char) :=
  if close.isPrefixOf l then some ([], l.drop close.length)
  else
    match l with
    | [] => none
    | c :: cs =>
      match lazySplitAny close cs with
      | some (content, rest) => some (c :: content, rest)
      | none => none

/-- JavaScript `String.trim` on the code-block capture. -/
def jsTrim (cs : List Char) : List Char :=
  ((cs.dropWhile Char.isWhitespace).reverse.dropWhile Char.isWhitespace).reverse

/-- The replacement the code-fence substitution produces:
the Confluence code macro with `lang || 'text'` and the trimmed capture,
exactly as in the source template literal (including its indentation). -/
def fenceMacro (lang content : List Char) : List Char :=
  "<ac:structured-macro ac:name=\"code\">\n        <ac:parameter ac:name=\"language\">".data
  ++ (if lang.isEmpty then "text".data else lang)
  ++ "</ac:parameter>\n        <ac:plain-text-body><![CDATA[".data
  ++ jsTrim content
  ++ "]]></ac:plain-text-body>\n      </ac:structured-macro>".data

/-- The code-fence substitution
`replace(/```(\w+)?\n([\s\S]*?)```/g, fn)`: at a position starting with
three backticks, take the greedy optional word tag, require a newline, then
the lazy body up to the next three backticks; otherwise advance one
character. The fuel (initially the text length) is never exhausted. -/
def subFenceGo : Nat → List Char → List Char
  | _, [] => []
  | 0, l => l
  | fuel + 1, c :: cs =>
    if c = '`' ∧ ('`' :: ['`']).isPrefixOf cs then
      let after := cs.drop 2
      let (w, rest1) := takeWord after
      match rest1 with
      | c2 :: rest2 =>
        if c2 = '\n' then
          match lazySplitAny ('`' :: '`' :: ['`']) rest2 with
          | some (content, rest3) => fenceMacro w content ++ subFenceGo fuel rest3
          | none => c :: subFenceGo fuel cs
        else c :: subFenceGo fuel cs
      | [] => c :: subFenceGo fuel cs
    else c :: subFenceGo fuel cs

def subFence (cs : List Char) : List Char :=
  subFenceGo cs.length cs

/-- The line-break substitution `replace(/\n/g, '<br/>\n')`. -/
def subLinebreak (cs : List Char) : List Char :=
  cs.flatMap fun c => if c = '\n' then "<br/>\n".data else [c]

/-- `DocumentService.markdownToConfluence`: the six substitutions in source
order — headers, bold, italic, code fences, inline code, line breaks. -/
def DocumentService.markdownToConfluence (markdown : String) : String :=
  String.mk
    (subLinebreak
      (subDelim '`' [] ("<code>".data) ("</code>".data)
        (subFence
          (subDelim '*' [] ("<em>".data) ("</em>".data)
            (subDelim '*' ['*'] ("<strong>".data) ("</strong>".data)
              (subHeaders markdown.data))))))

/-! ## Predicates and concrete inputs used by the theorems -/

/-- A plain text: none of the renderer's markdown constructs occur — no
newline, no emphasis or code-span delimiter anywhere, and no header marker
at the start. -/
def noMarkdownSyntax (s : String) : Bool :=
  s.data.all (fun c => c != '\n' && c != '*' && c != '`')
  && !(('#' :: [' ']).isPrefixOf s.data)
  && !(('#' :: '#' :: [' ']).isPrefixOf s.data)
  && !(('#' :: '#' :: '#' :: [' ']).isPrefixOf s.data)

/-- A pipeline input whose Jira issue list is empty. -/
def emptyIssuesParams : GenParams :=
  { githubData := { owner := "acme", name := "demo", fileTree := [] },
    jiraIssues := [],
    llmProvider := "bedrock",
    llmModel := "anthropic.claude-3-sonnet-20240229-v1:0" }

/-- A pipeline input whose first Jira issue key starts with a hyphen, so the
prefix before the first hyphen is the empty string. -/
def dashKeyParams : GenParams :=
  { githubData := { owner := "acme", name := "demo", fileTree := [] },
    jiraIssues := [{ key := "-1", summary := "fix", issueType := "Task", status := "Open" }],
    llmProvider := "bedrock",
    llmModel := "anthropic.claude-3-sonnet-20240229-v1:0" }

/-! ## Helper lemmas -/

theorem String.isEmpty_false_of_ne (t : String) (ht : t ≠ "") : t.isEmpty = false := by
  rw [Bool.eq_false_iff]
  intro h
  exact ht ((String.isEmpty_iff t).mp h)

/-! ## C1 — cached fresh credentials are returned without a network call -/

/-- C1. For both token-caching credential providers (the GitHub app-jwt
provider and the Atlassian oauth2-client-credentials provider), a cached
bearer credential whose expiry lies more than 5 minutes in the future is
returned as is: no token-endpoint call is made and the cache is unchanged,
whatever the token endpoint would have answered. -/
theorem getAccessToken_cached (t : String) (e now : Int)
    (ht : t ≠ "") (hnow : 0 ≤ now) (he : now + 5 * 60 * 1000 < e)
    (refreshG : Except String (String × Int)) (refreshA : Except String String) :
    GitHubOAuthConfig.getAccessToken ⟨some t, some e⟩ now refreshG
      = ⟨.ok t, ⟨some t, some e⟩, 0⟩ ∧
    AtlassianAuthClient.getAccessToken ⟨some t, some e⟩ now refreshA
      = (.ok t, ⟨some t, some e⟩, 0) := by
  have he0 : e ≠ 0 := by omega
  have h1 : githubCacheFresh ⟨some t, some e⟩ now = true := by
    simp [githubCacheFresh, he0]
    exact ⟨String.isEmpty_false_of_ne t ht, by omega⟩
  have h2 : atlassianCacheFresh ⟨some t, some e⟩ now = true := by
    simp [atlassianCacheFresh, he0]
    exact ⟨String.isEmpty_false_of_ne t ht, by omega⟩
  constructor
  · simp [GitHubOAuthConfig.getAccessToken, h1]
  · simp [AtlassianAuthClient.getAccessToken, h2]

/-- C1, witness: a concrete cached token expiring 301 seconds from now. -/
theorem getAccessToken_cached_witness :
    ("bearer" : String) ≠ "" ∧ (0 : Int) ≤ 0 ∧ (0 : Int) + 5 * 60 * 1000 < 301000 ∧
    GitHubOAuthConfig.getAccessToken ⟨some "bearer", some 301000⟩ 0 (.error "down")
      = ⟨.ok "bearer", ⟨some "bearer", some 301000⟩, 0⟩ ∧
    AtlassianAuthClient.getAccessToken ⟨some "bearer", some 301000⟩ 0 (.error "down")
      = (.ok "bearer", ⟨some "bearer", some 301000⟩, 0) := by
  have h := getAccessToken_cached "bearer" 301000 0 (by decide) (by decide) (by decide)
    (.error "down") (.error "down")
  exact ⟨by decide, by decide, by decide, h.1, h.2⟩

/-! ## C2 — single-flight refresh -/

/-- C2, counterexample. Ten concurrent callers of one
`GitHubOAuthConfig.getAccessToken` instance, all of which observe the stale
cache before any refresh completes: ten token-endpoint requests are issued,
not one, and each caller resolves with its own request's token rather than
a shared in-flight result. -/
theorem singleFlight_refuted :
    tenCallerRace.requestsIssued = 10 ∧
    tenCallerRace.callers = (List.range 10).map (fun j => .done ("tok" ++ toString j)) ∧
    ¬ tenCallerRace.requestsIssued = 1 := by
  refine ⟨by decide, by decide, by decide⟩

/-- C2, amended. A caller that finds the cache stale issues its own
token-endpoint request, so N callers that all check before any refresh
completes issue N requests (shown for the spec's N = 10), each resolving
with its own request's token; only a caller that checks after a refresh has
completed reuses the cached token without a further request. -/
theorem concurrentRefresh_per_caller :
    tenCallerRace.requestsIssued = 10 ∧
    tenCallerRace.callers = (List.range 10).map (fun j => .done ("tok" ++ toString j)) ∧
    sequentialCallers.requestsIssued = 1 ∧
    sequentialCallers.callers = [.done "tok0", .done "tok0"] := by
  refine ⟨by decide, by decide, by decide, by decide⟩

/-! ## C3 — bounded auto-pagination -/

theorem getPaginatedGo_spec {α : Type} (fetch : Nat → Option (List α)) (perPage : Nat) :
    ∀ (fuel page : Nat),
    ∃ k, k ≤ fuel ∧
      (getPaginatedGo fetch perPage page fuel).2 = List.range' page k ∧
      (∀ j, page ≤ j → j + 1 < page + k → pageStops fetch perPage j = false) ∧
      (k = fuel ∨ (0 < k ∧ pageStops fetch perPage (page + k - 1) = true)) ∧
      (getPaginatedGo fetch perPage page fuel).1
        = ((getPaginatedGo fetch perPage page fuel).2.map fun j => (fetch j).getD []).flatten := by
  intro fuel
  induction fuel with
  | zero =>
    intro page
    exact ⟨0, by simp [getPaginatedGo], by simp [getPaginatedGo], by omega,
      Or.inl rfl, by simp [getPaginatedGo]⟩
  | succ fuel ih =>
    intro page
    match hf : fetch page with
    | none =>
      refine ⟨1, by omega, ?_, ?_, ?_, ?_⟩
      · simp [getPaginatedGo, hf, List.range'_succ]
      · intro j h1 h2; omega
      · exact Or.inr ⟨by omega, by simp [pageStops, hf]⟩
      · simp [getPaginatedGo, hf]
    | some items =>
      by_cases hz : items.length = 0
      · refine ⟨1, by omega, ?_, ?_, ?_, ?_⟩
        · simp [getPaginatedGo, hf, hz, List.range'_succ]
        · intro j h1 h2; omega
        · exact Or.inr ⟨by omega, by simp [pageStops, hf, hz]⟩
        · simp [getPaginatedGo, hf, hz, List.length_eq_zero.mp hz]
      · by_cases hlt : items.length < perPage
        · refine ⟨1, by omega, ?_, ?_, ?_, ?_⟩
          · simp [getPaginatedGo, hf, hz, hlt, List.range'_succ]
          · intro j h1 h2; omega
          · exact Or.inr ⟨by omega, by simp [pageStops, hf, hlt]⟩
          · simp [getPaginatedGo, hf, hz, hlt]
        · obtain ⟨k, hk, hreq, hmid, hlast, hitems⟩ := ih (page + 1)
          refine ⟨k + 1, by omega, ?_, ?_, ?_, ?_⟩
          · simp only [getPaginatedGo, hf, if_neg hz, if_neg hlt]
            rw [List.range'_succ]
            simpa using hreq
          · intro j h1 h2
            rcases Nat.eq_or_lt_of_le h1 with h | h
            · subst h
              simp [pageStops, hf, hz, hlt]
            · exact hmid j (by omega) (by omega)
          · rcases hlast with h | ⟨hk0, hstop⟩
            · exact Or.inl (by omega)
            · refine Or.inr ⟨by omega, ?_⟩
              have : page + (k + 1) - 1 = page + 1 + k - 1 := by omega
              rw [this]
              exact hstop
          · simp only [getPaginatedGo, hf, if_neg hz, if_neg hlt]
            simp [List.map_cons, List.flatten_cons, hf, ← hitems]

/-- C3. `getPaginated` requests pages `1, 2, …, k` for some `k ≤ maxPages`
(sequentially, in order), none of the pages before the last one satisfies a
stop condition, the last requested page either is the `maxPages`-th or
satisfies a stop condition (fewer items than the page size, empty, or not
an array — whichever comes first), and the result is the concatenation of
the requested pages' items in page order; in particular, with page size 2
against the mocked 5-item 3-page source it returns the 5 items in source
order, having requested exactly pages 1, 2 and 3 and stopped after the
partial third page. -/
theorem sendPaged_spec :
    (∀ (α : Type) (fetch : Nat → Option (List α)) (pp : Option Nat) (m : Nat),
      ∃ k, k ≤ m ∧
        (GitHubApiClient.getPaginated fetch pp m).2 = List.range' 1 k ∧
        (∀ j, 1 ≤ j → j + 1 < 1 + k → pageStops fetch (jsOrDefault pp 100) j = false) ∧
        (k = m ∨ (0 < k ∧ pageStops fetch (jsOrDefault pp 100) k = true)) ∧
        (GitHubApiClient.getPaginated fetch pp m).1
          = ((GitHubApiClient.getPaginated fetch pp m).2.map fun j => (fetch j).getD []).flatten) ∧
    GitHubApiClient.getPaginated fivePageSource (some 2) 10 = ([1, 2, 3, 4, 5], [1, 2, 3]) := by
  constructor
  · intro α fetch pp m
    obtain ⟨k, hk, hreq, hmid, hlast, hitems⟩ :=
      getPaginatedGo_spec fetch (jsOrDefault pp 100) m 1
    refine ⟨k, hk, hreq, hmid, ?_, hitems⟩
    rcases hlast with h | ⟨hk0, hstop⟩
    · exact Or.inl h
    · refine Or.inr ⟨hk0, ?_⟩
      have : 1 + k - 1 = k := by omega
      rwa [this] at hstop
  · decide

/-- C3, witness: the universally quantified part applied to the mocked
5-item source. -/
theorem sendPaged_spec_witness :
    ∃ k, k ≤ 10 ∧
      (GitHubApiClient.getPaginated fivePageSource (some 2) 10).2 = List.range' 1 k ∧
      (∀ j, 1 ≤ j → j + 1 < 1 + k → pageStops fivePageSource (jsOrDefault (some 2) 100) j = false) ∧
      (k = 10 ∨ (0 < k ∧ pageStops fivePageSource (jsOrDefault (some 2) 100) k = true)) ∧
      (GitHubApiClient.getPaginated fivePageSource (some 2) 10).1
        = ((GitHubApiClient.getPaginated fivePageSource (some 2) 10).2.map
            fun j => (fivePageSource j).getD []).flatten :=
  sendPaged_spec.1 Nat fivePageSource (some 2) 10

/-! ## C4 — five sections in canonical order -/

/-- C4. Whenever `generateDocument` returns a document it has exactly five
sections whose kinds are, in order, overview, requirements, architecture,
dataflow, technical-details — for every backend and every input, including
an empty Jira issue list; and whenever the backend answers every request,
a document is returned. -/
theorem generateDocument_five_sections (backend : GenRequest → Except String String)
    (nowIso : String) (p : GenParams) :
    (∀ doc, DocumentService.generateDocument backend nowIso p = .ok doc →
      doc.sections.length = 5 ∧
      doc.sections.map DocumentSection.type
        = ["overview", "requirements", "architecture", "dataflow", "technical-details"]) ∧
    ((∀ req, ∃ t, backend req = .ok t) →
      ∃ doc, DocumentService.generateDocument backend nowIso p = .ok doc) := by
  constructor
  · intro doc h
    simp only [DocumentService.generateDocument, LLMService.generateText, bind, Except.bind] at h
    repeat' split at h
    all_goals try simp only [pure, Except.pure] at h
    all_goals first
      | exact Except.noConfusion h
      | (cases h; simp)
  · intro hall
    obtain ⟨t1, h1⟩ := hall (overviewRequest p)
    obtain ⟨t2, h2⟩ := hall (requirementsRequest p)
    obtain ⟨t3, h3⟩ := hall (architectureRequest p)
    obtain ⟨t4, h4⟩ := hall (dataflowRequest p)
    obtain ⟨t5, h5⟩ := hall (technicalRequest p)
    rcases hd : DocumentService.generateDocument backend nowIso p with e | doc
    · exfalso
      simp only [DocumentService.generateDocument, LLMService.generateText, bind,
        Except.bind, h1, h2, h3, h4, h5, pure, Except.pure] at hd
      exact Except.noConfusion hd
    · exact ⟨doc, rfl⟩

/-- C4, witness: a run with an always-answering backend and an empty Jira
issue list yields a document with the five canonical sections. -/
theorem generateDocument_five_sections_witness :
    ∃ doc, DocumentService.generateDocument (fun _ => .ok "本文")
        "2024-01-01T00:00:00.000Z" emptyIssuesParams = .ok doc ∧
      doc.sections.length = 5 ∧
      doc.sections.map DocumentSection.type
        = ["overview", "requirements", "architecture", "dataflow", "technical-details"] := by
  obtain ⟨hdoc, hex⟩ := generateDocument_five_sections (fun _ => .ok "本文")
    "2024-01-01T00:00:00.000Z" emptyIssuesParams
  obtain ⟨doc, hd⟩ := hex (fun _ => ⟨"本文", rfl⟩)
  exact ⟨doc, hd, hdoc doc hd⟩

/-! ## C6 — any step failure aborts the pipeline -/

/-- C6. If the `k`-th of the five generation steps fails (its
`GenerationFailure` value being `e`) while the earlier steps succeed,
`generateDocument` returns exactly `e` — the step's error unchanged — and
no document at all. -/
theorem generateDocument_aborts (backend : GenRequest → Except String String)
    (nowIso : String) (p : GenParams) (k : Nat) (e : String)
    (hk : k < 5)
    (hfail : LLMService.generateText backend ((sectionRequests p).getD k ⟨"", "", "", ""⟩)
      = .error e)
    (hbefore : ∀ j, j < k →
      ∃ t, LLMService.generateText backend ((sectionRequests p).getD j ⟨"", "", "", ""⟩) = .ok t) :
    DocumentService.generateDocument backend nowIso p = .error e ∧
    ∀ doc, DocumentService.generateDocument backend nowIso p ≠ .ok doc := by
  have main : DocumentService.generateDocument backend nowIso p = .error e := by
    interval_cases k
    · simp only [sectionRequests, List.getD, List.get?, Option.getD_some] at hfail
      simp [DocumentService.generateDocument, bind, Except.bind, hfail]
    · obtain ⟨t0, h0⟩ := hbefore 0 (by omega)
      simp only [sectionRequests, List.getD, List.get?, Option.getD_some] at h0 hfail
      simp [DocumentService.generateDocument, bind, Except.bind, h0, hfail]
    · obtain ⟨t0, h0⟩ := hbefore 0 (by omega)
      obtain ⟨t1, h1⟩ := hbefore 1 (by omega)
      simp only [sectionRequests, List.getD, List.get?, Option.getD_some] at h0 h1 hfail
      simp [DocumentService.generateDocument, bind, Except.bind, h0, h1, hfail]
    · obtain ⟨t0, h0⟩ := hbefore 0 (by omega)
      obtain ⟨t1, h1⟩ := hbefore 1 (by omega)
      obtain ⟨t2, h2⟩ := hbefore 2 (by omega)
      simp only [sectionRequests, List.getD, List.get?, Option.getD_some] at h0 h1 h2 hfail
      simp [DocumentService.generateDocument, bind, Except.bind, h0, h1, h2, hfail]
    · obtain ⟨t0, h0⟩ := hbefore 0 (by omega)
      obtain ⟨t1, h1⟩ := hbefore 1 (by omega)
      obtain ⟨t2, h2⟩ := hbefore 2 (by omega)
      obtain ⟨t3, h3⟩ := hbefore 3 (by omega)
      simp only [sectionRequests, List.getD, List.get?, Option.getD_some] at h0 h1 h2 h3 hfail
      simp [DocumentService.generateDocument, bind, Except.bind, h0, h1, h2, h3, hfail]
  exact ⟨main, fun doc hdoc => by rw [main] at hdoc; exact Except.noConfusion hdoc⟩

/-- C6, witness: a backend whose first call fails aborts the run with the
wrapped generation error. -/
theorem generateDocument_aborts_witness :
    DocumentService.generateDocument (fun _ => .error "backend down")
      "2024-01-01T00:00:00.000Z" emptyIssuesParams
      = .error ("Failed to generate text: " ++ "backend down") := by
  have h := generateDocument_aborts (fun _ => .error "backend down")
    "2024-01-01T00:00:00.000Z" emptyIssuesParams 0
    ("Failed to generate text: " ++ "backend down") (by omega) rfl
    (fun j hj => absurd hj (by omega))
  exact h.1

/-! ## C10 — document metadata -/

/-- C10, amended. On every successful run the metadata is populated from
the run's inputs (`generatedAt` from the clock, `githubRepo` from
owner/name, provider and model passed through); `jiraProject` is `Unknown`
when the issue list is empty, is the prefix of the first issue's key before
its first hyphen when that prefix is nonempty, and falls back to `Unknown`
when that prefix is empty. -/
theorem generateDocument_metadata (backend : GenRequest → Except String String)
    (nowIso : String) (p : GenParams) (doc : DocumentContent)
    (h : DocumentService.generateDocument backend nowIso p = .ok doc) :
    doc.metadata.generatedAt = nowIso ∧
    doc.metadata.githubRepo = p.githubData.owner ++ "/" ++ p.githubData.name ∧
    doc.metadata.llmProvider = p.llmProvider ∧
    doc.metadata.llmModel = p.llmModel ∧
    (p.jiraIssues = [] → doc.metadata.jiraProject = "Unknown") ∧
    (∀ issue rest, p.jiraIssues = issue :: rest →
      (jsSplitHead issue.key ≠ "" → doc.metadata.jiraProject = jsSplitHead issue.key) ∧
      (jsSplitHead issue.key = "" → doc.metadata.jiraProject = "Unknown")) := by
  simp only [DocumentService.generateDocument, LLMService.generateText, bind, Except.bind] at h
  repeat' split at h
  all_goals try simp only [pure, Except.pure] at h
  all_goals first
    | exact Except.noConfusion h
    | (cases h
       refine ⟨rfl, rfl, rfl, rfl, ?_, ?_⟩
       · intro he
         simp [jsJiraProject, he]
       · intro issue rest heq
         refine ⟨?_, ?_⟩
         · intro hne
           have hf := String.isEmpty_false_of_ne _ hne
           simp only [DocumentContent.metadata]
           show jsJiraProject p.jiraIssues = _
           rw [heq]
           simp [jsJiraProject, hf]
         · intro hemp
           simp only [DocumentContent.metadata]
           show jsJiraProject p.jiraIssues = _
           rw [heq]
           simp [jsJiraProject, hemp]
           decide)

/-- C10, witness: the empty-issue-list run has metadata populated and
`jiraProject = "Unknown"`. -/
theorem generateDocument_metadata_witness :
    ∃ doc, DocumentService.generateDocument (fun _ => .ok "本文")
        "2024-01-01T00:00:00.000Z" emptyIssuesParams = .ok doc ∧
      doc.metadata.generatedAt = "2024-01-01T00:00:00.000Z" ∧
      doc.metadata.githubRepo = "acme" ++ "/" ++ "demo" ∧
      doc.metadata.jiraProject = "Unknown" := by
  rcases hd : DocumentService.generateDocument (fun _ => .ok "本文")
      "2024-01-01T00:00:00.000Z" emptyIssuesParams with e | doc
  · exact Except.noConfusion hd
  · obtain ⟨h1, h2, _, _, h5, _⟩ := generateDocument_metadata _ _ _ _ hd
    exact ⟨doc, rfl, h1, h2, h5 rfl⟩

/-- C10, counterexample. A run whose first issue key is `-1` (the prefix
before the first hyphen is the empty string): the document's `jiraProject`
is `Unknown`, not that prefix. -/
theorem jiraProject_prefix_refuted :
    (DocumentService.generateDocument (fun _ => .ok "本文") "2024-01-01T00:00:00.000Z"
        dashKeyParams).toOption.map (fun d => d.metadata.jiraProject) = some "Unknown" ∧
    jsSplitHead "-1" = "" ∧
    ("Unknown" : String) ≠ "" := by
  refine ⟨rfl, by decide, by decide⟩

/-! ## C5 — the tool adapter never lets a fault escape -/

/-- C5. Every tool the adapter exposes (all GitHub tools and all Atlassian
tools), on every gateway behavior and every input, resolves — it never
rejects with a thrown fault; what it resolves with is either the try-block
body's success payload or the object `{ error: <label><message> }` built
from the caught exception. -/
theorem toolAdapter_no_fault :
    ∀ t ∈ allAdapterTools, ∀ (oracle : ApiOracle) (input : Json),
    ∃ r : Json, t.run oracle input = .ok r ∧
      (t.body oracle input = .ok r ∨
       ∃ e, t.body oracle input = .error e ∧
         r = Json.obj [("error", Json.str (t.failLabel ++ e.message))]) := by
  intro t _ oracle input
  match hb : t.body oracle input with
  | .ok v => exact ⟨v, by simp [ToolSpec.run, hb], Or.inl rfl⟩
  | .error e =>
    exact ⟨Json.obj [("error", Json.str (t.failLabel ++ e.message))],
      by simp [ToolSpec.run, hb], Or.inr ⟨e, rfl, rfl⟩⟩

/-- C5, witness: the first GitHub tool run against a gateway that always
throws still resolves, with the error-shaped payload. -/
theorem toolAdapter_no_fault_witness :
    ∃ r : Json, searchRepositoriesTool.run (fun _ => .error (.fault "boom")) Json.null = .ok r ∧
      (searchRepositoriesTool.body (fun _ => .error (.fault "boom")) Json.null = .ok r ∨
       ∃ e, searchRepositoriesTool.body (fun _ => .error (.fault "boom")) Json.null = .error e ∧
         r = Json.obj [("error", Json.str (searchRepositoriesTool.failLabel ++ e.message))]) :=
  toolAdapter_no_fault searchRepositoriesTool
    (by simp [allAdapterTools, createGitHubTools])
    (fun _ => .error (.fault "boom")) Json.null

/-! ## C9 — 204 and empty-body responses -/

/-- C9, counterexample. `AtlassianRestClient.get` on a successful 204
No-Content response with an empty body hands the body to `JSON.parse`
(which fails on an empty document) and aborts with a parse error instead
of resolving to an empty structured value. -/
theorem atlassian_204_parse_refuted :
    AtlassianRestClient.handleGet parseEmptyFails "/rest/api/3/myself" noContentResponse
      = .error (.parseFault "Unexpected end of JSON input") ∧
    parseEmptyFails "" = none ∧
    httpOk noContentResponse = true := by
  refine ⟨rfl, rfl, rfl⟩

/-- C9, amended. Only the GitHub client's `handleResponse` special-cases
HTTP 204, resolving it to the empty object without touching the body; an
empty body on any other successful status in the GitHub client, and a 204
or empty body in either Atlassian client, goes to `JSON.parse` and fails
with a parse error. -/
theorem emptyBody_handling (parse : String → Option Json) (r : HttpResponse)
    (path : String) (hparse : parse "" = none) :
    (r.status = 204 → GitHubApiClient.handleResponse parse r = .ok (Json.obj [])) ∧
    (httpOk r = true → r.status ≠ 204 → r.body = "" →
      GitHubApiClient.handleResponse parse r
        = .error (.parseFault "Unexpected end of JSON input")) ∧
    (httpOk r = true → r.body = "" →
      AtlassianOAuthClient.handleGet parse path r
        = .error (.parseFault "Unexpected end of JSON input")) ∧
    (httpOk r = true → r.body = "" →
      AtlassianRestClient.handleGet parse path r
        = .error (.parseFault "Unexpected end of JSON input")) := by
  refine ⟨?_, ?_, ?_, ?_⟩
  · intro h204
    have hok : httpOk r = true := by simp [httpOk, h204]
    simp [GitHubApiClient.handleResponse, hok, h204]
  · intro hok hne hbody
    simp [GitHubApiClient.handleResponse, hok, hne, hbody, hparse]
  · intro hok hbody
    simp [AtlassianOAuthClient.handleGet, hok, hbody, hparse]
  · intro hok hbody
    simp [AtlassianRestClient.handleGet, hok, hbody, hparse]

/-- C9, witness: the amended statement at the concrete 204 response. -/
theorem emptyBody_handling_witness :
    parseEmptyFails "" = none ∧
    (noContentResponse.status = 204 →
      GitHubApiClient.handleResponse parseEmptyFails noContentResponse = .ok (Json.obj [])) ∧
    (httpOk noContentResponse = true → noContentResponse.body = "" →
      AtlassianRestClient.handleGet parseEmptyFails "/rest/api/3/myself" noContentResponse
        = .error (.parseFault "Unexpected end of JSON input")) :=
  have h := emptyBody_handling parseEmptyFails noContentResponse "/rest/api/3/myself" rfl
  ⟨rfl, h.1, h.2.2.2⟩

/-! ## Markdown renderer lemmas -/

theorem joinChar_splitOnChar (sep : Char) (cs : List Char) :
    joinChar sep (splitOnChar sep cs) = cs := by
  induction cs with
  | nil => rfl
  | cons c cs ih =>
    simp only [splitOnChar]
    split
    case h_1 heq =>
      rw [heq] at ih
      simp only [joinChar] at ih
      subst ih
      rfl
    case h_2 l ls heq =>
      rw [heq] at ih
      by_cases hc : c = sep
      · subst hc
        rw [if_pos rfl]
        cases ls <;> simp_all [joinChar]
      · rw [if_neg hc]
        cases ls <;> simp_all [joinChar]

theorem splitOnChar_of_not_mem (sep : Char) (cs : List Char) (h : sep ∉ cs) :
    splitOnChar sep cs = [cs] := by
  induction cs with
  | nil => rfl
  | cons c cs ih =>
    have hc : ¬ c = sep := fun he => h (he ▸ List.mem_cons_self c cs)
    have hcs : sep ∉ cs := fun hm => h (List.mem_cons_of_mem c hm)
    simp only [splitOnChar, ih hcs, if_neg hc]

theorem mem_joinChar_of_mem (sep : Char) (ls : List (List Char)) (l : List Char) (c : Char)
    (hl : l ∈ ls) (hc : c ∈ l) : c ∈ joinChar sep ls := by
  induction ls with
  | nil => exact absurd hl (List.not_mem_nil l)
  | cons p ps ih =>
    rcases List.mem_cons.mp hl with rfl | hl
    · cases ps with
      | nil => simpa [joinChar] using hc
      | cons q qs =>
        simp only [joinChar, List.mem_append]
        exact Or.inl hc
    · cases ps with
      | nil => exact absurd hl (List.not_mem_nil l)
      | cons q qs =>
        simp only [joinChar, List.mem_append, List.mem_cons]
        exact Or.inr (Or.inr (ih hl))

theorem mem_of_mem_splitOnChar (sep : Char) (cs : List Char) (l : List Char) (c : Char)
    (hl : l ∈ splitOnChar sep cs) (hc : c ∈ l) : c ∈ cs := by
  rw [← joinChar_splitOnChar sep cs]
  exact mem_joinChar_of_mem sep _ l c hl hc

theorem headerSub_of_no_match (marker openT closeT : List Char) (cs : List Char)
    (h : ∀ l ∈ splitOnChar '\n' cs, marker.isPrefixOf l = false) :
    headerSub marker openT closeT cs = cs := by
  unfold headerSub
  have hmap : (splitOnChar '\n' cs).map (fun line =>
      if marker.isPrefixOf line then openT ++ line.drop marker.length ++ closeT
      else line) = splitOnChar '\n' cs := by
    conv_rhs => rw [← List.map_id (splitOnChar '\n' cs)]
    apply List.map_congr_left
    intro l hl
    rw [h l hl]
    simp
  rw [hmap, joinChar_splitOnChar]

theorem headerSub_of_not_mem (m openT closeT : List Char) (cs : List Char)
    (h : '#' ∉ cs) :
    headerSub ('#' :: m) openT closeT cs = cs := by
  apply headerSub_of_no_match
  intro l hl
  cases l with
  | nil => rfl
  | cons x xs =>
    have hx : x ≠ '#' := fun he =>
      h (mem_of_mem_splitOnChar '\n' cs (x :: xs) '#' hl (he ▸ List.mem_cons_self x xs))
    rw [Bool.eq_false_iff]
    intro hpre
    simp only [List.isPrefixOf, Bool.and_eq_true, beq_iff_eq] at hpre
    exact hx hpre.1.symm

theorem subHeaders_of_not_mem (cs : List Char) (h : '#' ∉ cs) :
    subHeaders cs = cs := by
  unfold subHeaders
  rw [headerSub_of_not_mem _ _ _ _ h, headerSub_of_not_mem _ _ _ _ h,
    headerSub_of_not_mem _ _ _ _ h]

theorem subDelimGo_of_not_mem (d : Char) (ds openT closeT : List Char) (fuel : Nat)
    (cs : List Char) (h : d ∉ cs) :
    subDelimGo d ds openT closeT fuel cs = cs := by
  induction fuel generalizing cs with
  | zero => cases cs <;> rfl
  | succ fuel ih =>
    cases cs with
    | nil => rfl
    | cons c cs =>
      have hc : ¬ (c = d ∧ ds.isPrefixOf cs) := fun hand =>
        h (hand.1 ▸ List.mem_cons_self c cs)
      have hcs : d ∉ cs := fun hm => h (List.mem_cons_of_mem c hm)
      simp only [subDelimGo, if_neg hc, ih cs hcs]

theorem subFenceGo_of_not_mem (fuel : Nat) (cs : List Char) (h : '`' ∉ cs) :
    subFenceGo fuel cs = cs := by
  induction fuel generalizing cs with
  | zero => cases cs <;> rfl
  | succ fuel ih =>
    cases cs with
    | nil => rfl
    | cons c cs =>
      have hc : ¬ (c = '`' ∧ ('`' :: ['`']).isPrefixOf cs) := fun hand =>
        h (hand.1 ▸ List.mem_cons_self c cs)
      have hcs : '`' ∉ cs := fun hm => h (List.mem_cons_of_mem c hm)
      simp only [subFenceGo, if_neg hc, ih cs hcs]

theorem subLinebreak_of_not_mem (cs : List Char) (h : '\n' ∉ cs) :
    subLinebreak cs = cs := by
  induction cs with
  | nil => rfl
  | cons c cs ih =>
    have hc : ¬ c = '\n' := fun he => h (he ▸ List.mem_cons_self c cs)
    have hcs : '\n' ∉ cs := fun hm => h (List.mem_cons_of_mem c hm)
    simp only [subLinebreak, List.flatMap_cons, if_neg hc]
    simp only [subLinebreak] at ih
    simp [ih hcs]

theorem subDelim_of_not_mem (d : Char) (ds openT closeT : List Char) (cs : List Char)
    (h : d ∉ cs) : subDelim d ds openT closeT cs = cs :=
  subDelimGo_of_not_mem d ds openT closeT cs.length cs h

theorem subFence_of_not_mem (cs : List Char) (h : '`' ∉ cs) : subFence cs = cs :=
  subFenceGo_of_not_mem cs.length cs h

/-- On a string with no markdown construct, every substitution pass is the
identity. -/
theorem markdownToConfluence_plain (s : String) (h : noMarkdownSyntax s = true) :
    DocumentService.markdownToConfluence s = s := by
  unfold noMarkdownSyntax at h
  simp only [Bool.and_eq_true, List.all_eq_true, Bool.not_eq_true'] at h
  obtain ⟨⟨⟨hall, h1⟩, h2⟩, h3⟩ := h
  have hnl : '\n' ∉ s.data := by
    intro hm
    have := hall _ hm
    simp only [Bool.and_eq_true, bne_iff_ne] at this
    exact this.1.1 rfl
  have hstar : '*' ∉ s.data := by
    intro hm
    have := hall _ hm
    simp only [Bool.and_eq_true, bne_iff_ne] at this
    exact this.1.2 rfl
  have htick : '`' ∉ s.data := by
    intro hm
    have := hall _ hm
    simp only [Bool.and_eq_true, bne_iff_ne] at this
    exact this.2 rfl
  have hdr : ∀ (marker openT closeT : List Char), marker.isPrefixOf s.data = false →
      headerSub marker openT closeT s.data = s.data := by
    intro marker oT cT hmk
    apply headerSub_of_no_match
    rw [splitOnChar_of_not_mem _ _ hnl]
    intro l hl
    rw [List.mem_singleton] at hl
    subst hl
    exact hmk
  have e1 : subHeaders s.data = s.data := by
    unfold subHeaders
    rw [hdr _ _ _ h3, hdr _ _ _ h2, hdr _ _ _ h1]
  unfold DocumentService.markdownToConfluence
  rw [e1, subDelim_of_not_mem _ _ _ _ _ hstar, subDelim_of_not_mem _ _ _ _ _ hstar,
    subFence_of_not_mem _ htick, subDelim_of_not_mem _ _ _ _ _ htick,
    subLinebreak_of_not_mem _ hnl]

/-! ## C8 — idempotence on plain text -/

/-- C8. On plain text containing none of the renderer's markdown
constructs, rendering is idempotent: rendering the rendered output again
yields the same string (both renders are in fact the identity). -/
theorem markdownToConfluence_idempotent (s : String) (h : noMarkdownSyntax s = true) :
    DocumentService.markdownToConfluence (DocumentService.markdownToConfluence s)
      = DocumentService.markdownToConfluence s := by
  rw [markdownToConfluence_plain s h, markdownToConfluence_plain s h]

/-- C8, witness: a concrete plain-text sentence. -/
theorem markdownToConfluence_idempotent_witness :
    noMarkdownSyntax "Hello world. This is plain text." = true ∧
    DocumentService.markdownToConfluence
        (DocumentService.markdownToConfluence "Hello world. This is plain text.")
      = DocumentService.markdownToConfluence "Hello world. This is plain text." :=
  ⟨by decide, markdownToConfluence_idempotent "Hello world. This is plain text." (by decide)⟩

theorem takeWord_on_words (w : List Char) (c0 : Char) (rest : List Char)
    (hw : ∀ c ∈ w, isWordChar c = true) (hc0 : isWordChar c0 = false) :
    takeWord (w ++ c0 :: rest) = (w, c0 :: rest) := by
  induction w with
  | nil => simp [takeWord, hc0]
  | cons c cs ih =>
    have hc : isWordChar c = true := hw c (List.mem_cons_self c cs)
    have hcs : ∀ x ∈ cs, isWordChar x = true := fun x hx => hw x (List.mem_cons_of_mem c hx)
    simp [takeWord, hc, ih hcs]

theorem lazySplitAny_closes (xs : List Char) (h : '`' ∉ xs) :
    lazySplitAny ('`' :: '`' :: ['`']) (xs ++ '`' :: '`' :: ['`']) = some (xs, []) := by
  induction xs with
  | nil => simp [lazySplitAny, List.isPrefixOf]
  | cons x xs ih =>
    have hx : x ≠ '`' := fun he => h (he ▸ List.mem_cons_self x xs)
    have hxs : '`' ∉ xs := fun hm => h (List.mem_cons_of_mem x hm)
    have hbeq : ('`' == x) = false := beq_eq_false_iff_ne.mpr (Ne.symm hx)
    have hpre : ('`' :: '`' :: ['`']).isPrefixOf (x :: (xs ++ '`' :: '`' :: ['`'])) = false := by
      simp [List.isPrefixOf, hbeq]
    rw [List.cons_append, lazySplitAny]
    simp [hpre, ih hxs, lazySplitAny]

theorem mem_of_mem_jsTrim (c : Char) (l : List Char) (h : c ∈ jsTrim l) : c ∈ l := by
  unfold jsTrim at h
  rw [List.mem_reverse] at h
  have h1 := (List.dropWhile_sublist _).mem h
  rw [List.mem_reverse] at h1
  exact (List.dropWhile_sublist _).mem h1

theorem tick_not_mem_fenceMacro (lang content : List Char)
    (hl : '`' ∉ lang) (hc : '`' ∉ content) : '`' ∉ fenceMacro lang content := by
  unfold fenceMacro
  intro hm
  simp only [List.mem_append] at hm
  rcases hm with (((h1 | h2) | h3) | h4) | h5
  · revert h1; decide
  · by_cases he : lang.isEmpty
    · rw [if_pos he] at h2
      revert h2; decide
    · rw [if_neg he] at h2
      exact hl h2
  · revert h3; decide
  · exact hc (mem_of_mem_jsTrim _ _ h4)
  · revert h5; decide

theorem subFence_fence (lang body : List Char)
    (hlang : ∀ c ∈ lang, isWordChar c = true)
    (hbody : '`' ∉ body) :
    subFence ('`' :: '`' :: '`' :: (lang ++ '\n' :: (body ++ ['\n', '`', '`', '`'])))
      = fenceMacro lang (body ++ ['\n']) := by
  have hxs : '`' ∉ body ++ ['\n'] := by
    intro hm
    rcases List.mem_append.mp hm with hm | hm
    · exact hbody hm
    · revert hm; decide
  unfold subFence
  rw [show ('`' :: '`' :: '`' :: (lang ++ '\n' :: (body ++ ['\n', '`', '`', '`']))).length
      = (lang.length + body.length + 7) + 1 from by simp; omega]
  rw [subFenceGo]
  rw [if_pos ⟨rfl, by simp [List.isPrefixOf]⟩]
  simp only [List.drop_succ_cons, List.drop_zero]
  rw [takeWord_on_words lang '\n' (body ++ ['\n', '`', '`', '`']) hlang (by decide)]
  dsimp only
  rw [if_pos rfl]
  rw [show body ++ ['\n', '`', '`', '`'] = (body ++ ['\n']) ++ '`' :: '`' :: ['`'] from by simp]
  rw [lazySplitAny_closes _ hxs]
  dsimp only
  rw [show ∀ fuel, subFenceGo fuel ([] : List Char) = [] from fun fuel => by cases fuel <;> rfl]
  simp

/-! ## C7 — fenced code blocks -/

set_option maxRecDepth 20000 in
/-- C7, counterexample. The bold substitution runs before code-fence
replacement, so it rewrites inside a fenced body: rendering
```` ```js\n**a**\n``` ```` produces a code-block whose CDATA body is
`<strong>a</strong>`, not the untouched body `**a**`. -/
theorem fencedBlock_untouched_refuted :
    DocumentService.markdownToConfluence "```js\n**a**\n```"
      = "<ac:structured-macro ac:name=\"code\"><br/>\n        <ac:parameter ac:name=\"language\">js</ac:parameter><br/>\n        <ac:plain-text-body><![CDATA[<strong>a</strong>]]></ac:plain-text-body><br/>\n      </ac:structured-macro>" ∧
    DocumentService.markdownToConfluence "```js\n**a**\n```"
      ≠ "<ac:structured-macro ac:name=\"code\"><br/>\n        <ac:parameter ac:name=\"language\">js</ac:parameter><br/>\n        <ac:plain-text-body><![CDATA[**a**]]></ac:plain-text-body><br/>\n      </ac:structured-macro>" := by
  constructor
  · rfl
  · decide

set_option maxRecDepth 20000 in
/-- C7, amended. The substitution order is headers, then bold, then italic,
then code fences, then inline code, then line breaks (first conjunct, the
renderer's definition read as a composition). A fenced block whose
language tag is made of word characters and whose body contains no
backtick, asterisk or hash renders to the code macro carrying that tag and
the trimmed body with no substitution applied inside it (second conjunct);
in particular ```` ```js\nconsole.log(1)\n``` ```` yields the macro with
language `js` and body `console.log(1)` (third conjunct). Bodies
containing emphasis or header markers are rewritten (see the
counterexample), because emphasis substitution precedes fence
replacement. -/
theorem markdownToConfluence_fencedBlock :
    (∀ s : String, DocumentService.markdownToConfluence s
      = String.mk (subLinebreak (subDelim '`' [] "<code>".data "</code>".data
          (subFence (subDelim '*' [] "<em>".data "</em>".data
            (subDelim '*' ['*'] "<strong>".data "</strong>".data
              (subHeaders s.data))))))) ∧
    (∀ lang body : List Char,
      (∀ c ∈ lang, isWordChar c = true) →
      (∀ c ∈ body, c ≠ '`' ∧ c ≠ '*' ∧ c ≠ '#') →
      DocumentService.markdownToConfluence
          (String.mk ('`' :: '`' :: '`' :: (lang ++ '\n' :: (body ++ ['\n', '`', '`', '`']))))
        = String.mk (subLinebreak (fenceMacro lang (body ++ ['\n'])))) ∧
    DocumentService.markdownToConfluence "```js\nconsole.log(1)\n```"
      = "<ac:structured-macro ac:name=\"code\"><br/>\n        <ac:parameter ac:name=\"language\">js</ac:parameter><br/>\n        <ac:plain-text-body><![CDATA[console.log(1)]]></ac:plain-text-body><br/>\n      </ac:structured-macro>" := by
  refine ⟨fun s => rfl, ?_, by rfl⟩
  intro lang body hlang hbody
  have hlt : '`' ∉ lang := fun hm => by
    have := hlang '`' hm
    revert this
    decide
  have hbt : '`' ∉ body := fun hm => (hbody '`' hm).1 rfl
  have hhash : '#' ∉ ('`' :: '`' :: '`' :: (lang ++ '\n' :: (body ++ ['\n', '`', '`', '`']))) := by
    intro hm
    rcases List.mem_cons.mp hm with h | hm
    · exact absurd h (by decide)
    rcases List.mem_cons.mp hm with h | hm
    · exact absurd h (by decide)
    rcases List.mem_cons.mp hm with h | hm
    · exact absurd h (by decide)
    rcases List.mem_append.mp hm with h | hm
    · exact absurd (hlang _ h) (by decide)
    rcases List.mem_cons.mp hm with h | hm
    · exact absurd h (by decide)
    rcases List.mem_append.mp hm with h | hm
    · exact (hbody _ h).2.2 rfl
    · exact absurd hm (by decide)
  have hstar : '*' ∉ ('`' :: '`' :: '`' :: (lang ++ '\n' :: (body ++ ['\n', '`', '`', '`']))) := by
    intro hm
    rcases List.mem_cons.mp hm with h | hm
    · exact absurd h (by decide)
    rcases List.mem_cons.mp hm with h | hm
    · exact absurd h (by decide)
    rcases List.mem_cons.mp hm with h | hm
    · exact absurd h (by decide)
    rcases List.mem_append.mp hm with h | hm
    · exact absurd (hlang _ h) (by decide)
    rcases List.mem_cons.mp hm with h | hm
    · exact absurd h (by decide)
    rcases List.mem_append.mp hm with h | hm
    · exact (hbody _ h).2.1 rfl
    · exact absurd hm (by decide)
  show String.mk _ = _
  rw [subHeaders_of_not_mem _ hhash, subDelim_of_not_mem _ _ _ _ _ hstar,
    subDelim_of_not_mem _ _ _ _ _ hstar, subFence_fence lang body hlang hbt,
    subDelim_of_not_mem _ _ _ _ _ (tick_not_mem_fenceMacro lang (body ++ ['\n']) hlt
      (fun hm => by
        rcases List.mem_append.mp hm with h | h
        · exact hbt h
        · revert h; decide))]

/-- C7, witness: the quantified part applied to tag `js` and body
`console.log(1)`. -/
theorem markdownToConfluence_fencedBlock_witness :
    DocumentService.markdownToConfluence
        (String.mk ('`' :: '`' :: '`' :: ("js".data ++ '\n' :: ("console.log(1)".data ++ ['\n', '`', '`', '`']))))
      = String.mk (subLinebreak (fenceMacro "js".data ("console.log(1)".data ++ ['\n']))) :=
  markdownToConfluence_fencedBlock.2.1 "js".data "console.log(1)".data
    (by decide) (by decide)
